import Mathlib

/-!
Shallow embedding of `src/providers/pkcs11_provider/key_management.rs` from the
parsec PKCS 11 provider: key identifier management, the key-info store adapter,
the object locator and the four key lifecycle operations (generate, import,
export, destroy).

External collaborators (the durable key-info store backend, the token session
layer and the PKCS 11 command backend) are modelled as explicit inputs: a
store value with injectable per-operation faults, and backend structures that
carry the outcome of each token round trip.  Every lifecycle function returns
its result, the provider state it leaves behind, and the ordered list of token
calls it issued.
-/

/-- Decidable equality for collaborator outcomes. -/
instance exceptDecEq {ε α : Type} [DecidableEq ε] [DecidableEq α] :
    DecidableEq (Except ε α) := fun x y =>
  match x, y with
  | .ok a, .ok b =>
    if h : a = b then .isTrue (by rw [h]) else .isFalse (by intro he; cases he; exact h rfl)
  | .error a, .error b =>
    if h : a = b then .isTrue (by rw [h]) else .isFalse (by intro he; cases he; exact h rfl)
  | .ok _, .error _ => .isFalse (by intro he; cases he)
  | .error _, .ok _ => .isFalse (by intro he; cases he)

/-- A byte, modelled as a natural number (values are below 256 where relevant). -/
abbrev Byte := Nat

/-- A PKCS 11 key identifier: the 4-byte correlation value (`[u8; 4]` in the source). -/
abbrev KeyId := List Byte

/-- Provider identities from `parsec_interface::requests::ProviderID`. -/
inductive ProviderID
  | Core
  | MbedCrypto
  | Pkcs11
  | Tpm
deriving DecidableEq, Repr

/-- The logical key identity `(application, provider, key name)`. -/
structure KeyTriple where
  app_name : String
  provider_id : ProviderID
  key_name : String
deriving DecidableEq, Repr

/-- Abstract key types; the PKCS 11 provider only handles the RSA ones. -/
inductive KeyType
  | RsaKeyPair
  | RsaPublicKey
  | OtherKeyType
deriving DecidableEq, Repr

/-- The caller-supplied key attributes consulted by this module. -/
structure Attributes where
  key_type : KeyType
  bits : Nat
deriving DecidableEq, Repr

/-- The durable record kept by the key info manager: identifier bytes plus attributes. -/
structure KeyInfo where
  id : List Byte
  attributes : Attributes
deriving DecidableEq, Repr

/-- The provider error vocabulary used by this module (`ResponseStatus` in the source). -/
inductive ResponseStatus
  | PsaErrorNotSupported
  | PsaErrorAlreadyExists
  | PsaErrorDoesNotExist
  | PsaErrorInvalidArgument
  | PsaErrorCommunicationFailure
  | KeyInfoManagerError
  | StoreError (msg : String)
  | TokenError (code : Nat)
deriving DecidableEq, Repr

/-- Lookup in the durable mapping of key triples to key records. -/
def mapLookup (data : List (KeyTriple × KeyInfo)) (t : KeyTriple) : Option KeyInfo :=
  match data with
  | [] => none
  | p :: rest => if p.1 = t then some p.2 else mapLookup rest t

/-- Removal of every entry for a triple from the durable mapping. -/
def mapRemoveEntry (data : List (KeyTriple × KeyInfo)) (t : KeyTriple) :
    List (KeyTriple × KeyInfo) :=
  match data with
  | [] => []
  | p :: rest => if p.1 = t then mapRemoveEntry rest t else p :: mapRemoveEntry rest t

/-- Insertion (with replacement) into the durable mapping. -/
def mapInsertEntry (data : List (KeyTriple × KeyInfo)) (t : KeyTriple) (ki : KeyInfo) :
    List (KeyTriple × KeyInfo) :=
  (t, ki) :: mapRemoveEntry data t

/-- The durable key-info store collaborator: its current contents together with
injectable faults, one per operation, standing for backend malfunction. -/
structure StoreBehavior where
  data : List (KeyTriple × KeyInfo)
  getFault : Option String
  insertFault : Option String
  removeFault : Option String
  existsFault : Option String
deriving DecidableEq, Repr

/-- A store backend in which every operation succeeds. -/
def okStore (data : List (KeyTriple × KeyInfo)) : StoreBehavior :=
  ⟨data, none, none, none, none⟩

/-- The store collaborator `get` operation. -/
def StoreBehavior.get (s : StoreBehavior) (t : KeyTriple) : Except String (Option KeyInfo) :=
  match s.getFault with
  | some e => .error e
  | none => .ok (mapLookup s.data t)

/-- The store collaborator `insert` operation; returns the previous entry, if any. -/
def StoreBehavior.insert (s : StoreBehavior) (t : KeyTriple) (ki : KeyInfo) :
    Except String (Option KeyInfo × StoreBehavior) :=
  match s.insertFault with
  | some e => .error e
  | none => .ok (mapLookup s.data t, { s with data := mapInsertEntry s.data t ki })

/-- The store collaborator `remove` operation. -/
def StoreBehavior.remove (s : StoreBehavior) (t : KeyTriple) :
    Except String (Option KeyInfo × StoreBehavior) :=
  match s.removeFault with
  | some e => .error e
  | none => .ok (mapLookup s.data t, { s with data := mapRemoveEntry s.data t })

/-- The store collaborator `exists` operation. -/
def StoreBehavior.containsKey (s : StoreBehavior) (t : KeyTriple) : Except String Bool :=
  match s.existsFault with
  | some e => .error e
  | none => .ok (mapLookup s.data t).isSome

/-- The in-memory Local Identifier Index (`LocalIdStore`, a `HashSet<[u8; 4]>`). -/
abbrev LocalIdStore := List KeyId

/-- Set membership test of the local identifier index. -/
def idContains (lids : LocalIdStore) (kid : KeyId) : Bool :=
  decide (kid ∈ lids)

/-- Set insertion into the local identifier index. -/
def idInsert (lids : LocalIdStore) (kid : KeyId) : LocalIdStore :=
  if kid ∈ lids then lids else kid :: lids

/-- Set removal from the local identifier index. -/
def idErase (lids : LocalIdStore) (kid : KeyId) : LocalIdStore :=
  lids.filter (fun x => decide (x ≠ kid))

/-- The provider state shared across lifecycle operations: the durable store
handle and the local identifier index. -/
structure ProviderState where
  key_info_store : StoreBehavior
  local_ids : LocalIdStore
deriving DecidableEq, Repr

/-- Modelled from the spec: `key_info_managers::to_response_status` is outside
the analyzed slice; per the spec it normalizes a backend error into the
provider error vocabulary, as a store-error (spec section 4.2: StoreError on
backend malfunction). -/
def key_info_managers.to_response_status (e : String) : ResponseStatus :=
  .StoreError e

/-- Embedding of `get_key_info` (source lines 20-38). -/
def get_key_info (key_triple : KeyTriple) (store_handle : StoreBehavior) :
    Except ResponseStatus (KeyId × Attributes) :=
  match store_handle.get key_triple with
  | .ok (some key_info) =>
    if key_info.id.length = 4 then
      .ok (key_info.id, key_info.attributes)
    else
      .error .KeyInfoManagerError
  | .ok none => .error .PsaErrorDoesNotExist
  | .error string => .error (key_info_managers.to_response_status string)

/-- Embedding of the random-draw loop of `create_key_id` (source lines 46-49):
the external random generator is a stream `randoms`, the loop keeps drawing
while the drawn value is in the local identifier index, and `fuel` bounds the
number of draws so the unbounded source loop is total here; `none` means the
fuel ran out while every drawn value collided. -/
def draw_key_id (randoms : Nat → KeyId) (local_ids : LocalIdStore) :
    Nat → Nat → Option KeyId
  | _, 0 => none
  | i, fuel + 1 =>
    let key_id := randoms i
    if idContains local_ids key_id then draw_key_id randoms local_ids (i + 1) fuel
    else some key_id

/-- Embedding of `create_key_id` (source lines 40-69). -/
def create_key_id (randoms : Nat → KeyId) (fuel : Nat) (key_triple : KeyTriple)
    (key_attributes : Attributes) (store_handle : StoreBehavior)
    (local_ids_handle : LocalIdStore) :
    Option (Except ResponseStatus KeyId × StoreBehavior × LocalIdStore) :=
  match draw_key_id randoms local_ids_handle 0 fuel with
  | none => none
  | some key_id =>
    let key_info : KeyInfo := { id := key_id, attributes := key_attributes }
    match store_handle.insert key_triple key_info with
    | .ok (_insert_option, store1) =>
      some (.ok key_id, store1, idInsert local_ids_handle key_id)
    | .error string =>
      some (.error (key_info_managers.to_response_status string), store_handle,
        local_ids_handle)

/-- Embedding of `remove_key_id` (source lines 71-84). -/
def remove_key_id (key_triple : KeyTriple) (key_id : KeyId)
    (store_handle : StoreBehavior) (local_ids_handle : LocalIdStore) :
    Except ResponseStatus Unit × StoreBehavior × LocalIdStore :=
  match store_handle.remove key_triple with
  | .ok (_, store1) => (.ok (), store1, idErase local_ids_handle key_id)
  | .error string =>
    (.error (key_info_managers.to_response_status string), store_handle, local_ids_handle)

/-- Embedding of `key_info_exists` (source lines 86-91). -/
def key_info_exists (key_triple : KeyTriple) (store_handle : StoreBehavior) :
    Except ResponseStatus Bool :=
  match store_handle.containsKey key_triple with
  | .ok val => .ok val
  | .error string => .error (key_info_managers.to_response_status string)

/-- PKCS 11 attribute type constant. -/
def CKA_CLASS : Nat := 0x0

/-- PKCS 11 attribute type constant. -/
def CKA_TOKEN : Nat := 0x1

/-- PKCS 11 attribute type constant. -/
def CKA_PRIVATE : Nat := 0x2

/-- PKCS 11 attribute type constant. -/
def CKA_KEY_TYPE : Nat := 0x100

/-- PKCS 11 attribute type constant. -/
def CKA_ID : Nat := 0x102

/-- PKCS 11 attribute type constant. -/
def CKA_ENCRYPT : Nat := 0x104

/-- PKCS 11 attribute type constant. -/
def CKA_VERIFY : Nat := 0x10A

/-- PKCS 11 attribute type constant. -/
def CKA_MODULUS : Nat := 0x120

/-- PKCS 11 attribute type constant. -/
def CKA_PUBLIC_EXPONENT : Nat := 0x122

/-- PKCS 11 attribute type constant. -/
def CKA_ALLOWED_MECHANISMS : Nat := 0x40000600

/-- PKCS 11 object class constant. -/
def CKO_PUBLIC_KEY : Nat := 0x2

/-- PKCS 11 object class constant. -/
def CKO_PRIVATE_KEY : Nat := 0x3

/-- PKCS 11 key type constant. -/
def CKK_RSA : Nat := 0x0

/-- PKCS 11 mechanism constant. -/
def CKM_RSA_PKCS : Nat := 0x1

/-- PKCS 11 return value for success. -/
def CKR_OK : Nat := 0

/-- The payload of a PKCS 11 attribute. -/
inductive CkAttrValue
  | bytes (bs : List Byte)
  | ulong (v : Nat)
  | flag (b : Bool)
  | mechs (ms : List Nat)
deriving DecidableEq, Repr

/-- A PKCS 11 attribute: type tag plus payload. -/
structure CK_ATTRIBUTE where
  attr_type : Nat
  value : CkAttrValue
deriving DecidableEq, Repr

/-- The key role argument of the object locator. -/
inductive KeyPairType
  | PublicKey
  | PrivateKey
  | Any
deriving DecidableEq, Repr

/-- The session mode argument of `Session::new`. -/
inductive ReadWriteSession
  | ReadOnly
  | ReadWrite
deriving DecidableEq, Repr

/-- A call issued to the token session or command layer, recorded in order. -/
inductive TokenCall
  | open_session (mode : ReadWriteSession)
  | find_objects_init (session : Nat) (template : List CK_ATTRIBUTE)
  | find_objects (session : Nat) (max_object_count : Nat)
  | find_objects_final (session : Nat)
  | generate_key_pair (session : Nat) (mech : Nat)
      (pub_template priv_template : List CK_ATTRIBUTE)
  | create_object (session : Nat) (template : List CK_ATTRIBUTE)
  | destroy_object (session : Nat) (object : Nat)
  | get_attribute_value (session : Nat) (object : Nat) (attr_types : List Nat)
deriving DecidableEq, Repr

/-- Modelled from the spec: `utils::to_response_status` is outside the analyzed
slice; per the spec it translates a native token error into the provider error
vocabulary as a token-error wrapping the native status code. -/
def utils.to_response_status (e : Nat) : ResponseStatus :=
  .TokenError e

/-- Modelled from the spec: `utils::rv_to_response_status` is outside the
analyzed slice; per the spec it wraps a native token return value. -/
def utils.rv_to_response_status (rv : Nat) : ResponseStatus :=
  .TokenError rv

/-- Outcomes of the three token round trips of one object search. -/
structure FindBackend where
  find_objects_init_result : Except Nat Unit
  find_objects_result : Except Nat (List Nat)
  find_objects_final_result : Except Nat Unit
deriving DecidableEq, Repr

/-- The search template built by `find_key` (source lines 102-113): the
correlation attribute always, the object class attribute only for a
public-key or private-key role. -/
def find_key_template (key_id : KeyId) (key_type : KeyPairType) : List CK_ATTRIBUTE :=
  let template := [CK_ATTRIBUTE.mk CKA_ID (.bytes key_id)]
  match key_type with
  | .PublicKey => template ++ [CK_ATTRIBUTE.mk CKA_CLASS (.ulong CKO_PUBLIC_KEY)]
  | .PrivateKey => template ++ [CK_ATTRIBUTE.mk CKA_CLASS (.ulong CKO_PRIVATE_KEY)]
  | .Any => template

/-- Embedding of `find_key` (source lines 96-139), returning the result and
the trace of token calls issued. -/
def find_key (backend : FindBackend) (session : Nat) (key_id : KeyId)
    (key_type : KeyPairType) : Except ResponseStatus Nat × List TokenCall :=
  let template := find_key_template key_id key_type
  match backend.find_objects_init_result with
  | .error e =>
    (.error (utils.to_response_status e), [.find_objects_init session template])
  | .ok _ =>
    match backend.find_objects_result with
    | .ok objects =>
      match backend.find_objects_final_result with
      | .error e =>
        (.error (utils.to_response_status e),
          [.find_objects_init session template, .find_objects session 1,
            .find_objects_final session])
      | .ok _ =>
        if objects.isEmpty then
          (.error .PsaErrorDoesNotExist,
            [.find_objects_init session template, .find_objects session 1,
              .find_objects_final session])
        else
          (.ok (objects.headD 0),
            [.find_objects_init session template, .find_objects session 1,
              .find_objects_final session])
    | .error e =>
      (.error (utils.to_response_status e),
        [.find_objects_init session template, .find_objects session 1])

/-- Modelled from the spec: `utils::parsec_to_pkcs11_params` is outside the
analyzed slice; per the spec (section 4.3) it maps the abstract key type to
token object-class, key-type and usage attributes, embeds the identifier as
the correlation attribute, and computes the RSA-only mechanism allow-list. -/
def utils.parsec_to_pkcs11_params (attributes : Attributes) (key_id : KeyId) :
    Except ResponseStatus (Nat × List CK_ATTRIBUTE × List CK_ATTRIBUTE × List Nat) :=
  match attributes.key_type with
  | .RsaKeyPair =>
    .ok (CKM_RSA_PKCS,
      [CK_ATTRIBUTE.mk CKA_CLASS (.ulong CKO_PUBLIC_KEY),
        CK_ATTRIBUTE.mk CKA_KEY_TYPE (.ulong CKK_RSA),
        CK_ATTRIBUTE.mk CKA_TOKEN (.flag true),
        CK_ATTRIBUTE.mk CKA_VERIFY (.flag true),
        CK_ATTRIBUTE.mk CKA_ENCRYPT (.flag true),
        CK_ATTRIBUTE.mk CKA_ID (.bytes key_id)],
      [CK_ATTRIBUTE.mk CKA_CLASS (.ulong CKO_PRIVATE_KEY),
        CK_ATTRIBUTE.mk CKA_KEY_TYPE (.ulong CKK_RSA),
        CK_ATTRIBUTE.mk CKA_TOKEN (.flag true),
        CK_ATTRIBUTE.mk CKA_ID (.bytes key_id)],
      [CKM_RSA_PKCS])
  | _ => .error .PsaErrorNotSupported

/-- Modelled from the spec: `utils::mech_type_to_allowed_mech_attribute` is
outside the analyzed slice; it packs the mechanism allow-list into a PKCS 11
attribute. -/
def utils.mech_type_to_allowed_mech_attribute (allowed_mechanism : List Nat) :
    CK_ATTRIBUTE :=
  CK_ATTRIBUTE.mk CKA_ALLOWED_MECHANISMS (.mechs allowed_mechanism)

/-- The `psa_generate_key` operation payload consulted by this module. -/
structure GenerateOp where
  key_name : String
  attributes : Attributes
deriving DecidableEq, Repr

/-- Collaborator outcomes for one generate call: session acquisition and the
key-pair generation command. -/
structure GenerateBackend where
  session_result : Except ResponseStatus Nat
  generate_key_pair_result : Except Nat Unit
deriving DecidableEq, Repr

/-- Embedding of `psa_generate_key_internal` (source lines 140-216): result,
final provider state, and the trace of token calls; `none` stands for the
source's unbounded identifier retry loop exceeding the modelling fuel. -/
def psa_generate_key_internal (backend : GenerateBackend) (randoms : Nat → KeyId)
    (fuel : Nat) (app_name : String) (op : GenerateOp) (st : ProviderState) :
    Option (Except ResponseStatus Unit × ProviderState × List TokenCall) :=
  if op.attributes.key_type ≠ KeyType.RsaKeyPair then
    some (.error .PsaErrorNotSupported, st, [])
  else
    let key_name := op.key_name
    let key_attributes := op.attributes
    let key_triple := KeyTriple.mk app_name ProviderID.Pkcs11 key_name
    match key_info_exists key_triple st.key_info_store with
    | .error e => some (.error e, st, [])
    | .ok true => some (.error .PsaErrorAlreadyExists, st, [])
    | .ok false =>
      match create_key_id randoms fuel key_triple key_attributes st.key_info_store
          st.local_ids with
      | none => none
      | some (.error e, store1, lids1) => some (.error e, ⟨store1, lids1⟩, [])
      | some (.ok key_id, store1, lids1) =>
        match utils.parsec_to_pkcs11_params key_attributes key_id with
        | .error e => some (.error e, ⟨store1, lids1⟩, [])
        | .ok (mech, pub_t, priv_t, allowed_mechanism) =>
          let pub_template :=
            pub_t ++ [utils.mech_type_to_allowed_mech_attribute allowed_mechanism]
          let priv_template :=
            priv_t ++ [utils.mech_type_to_allowed_mech_attribute allowed_mechanism]
          match backend.session_result with
          | .error err =>
            match remove_key_id key_triple key_id store1 lids1 with
            | (.error e2, store2, lids2) =>
              some (.error e2, ⟨store2, lids2⟩, [.open_session .ReadWrite])
            | (.ok _, store2, lids2) =>
              some (.error err, ⟨store2, lids2⟩, [.open_session .ReadWrite])
          | .ok session =>
            match backend.generate_key_pair_result with
            | .ok _ =>
              some (.ok (), ⟨store1, lids1⟩,
                [.open_session .ReadWrite,
                  .generate_key_pair session mech pub_template priv_template])
            | .error e =>
              match remove_key_id key_triple key_id store1 lids1 with
              | (.error e2, store2, lids2) =>
                some (.error e2, ⟨store2, lids2⟩,
                  [.open_session .ReadWrite,
                    .generate_key_pair session mech pub_template priv_template])
              | (.ok _, store2, lids2) =>
                some (.error (utils.to_response_status e), ⟨store2, lids2⟩,
                  [.open_session .ReadWrite,
                    .generate_key_pair session mech pub_template priv_template])

/-- An RSA public key as parsed from the caller-supplied bytes: modulus and
public exponent, each a signed-magnitude big-endian byte string
(`picky_asn1::wrapper::IntegerAsn1`). -/
structure RSAPublicKey where
  modulus : List Byte
  public_exponent : List Byte
deriving DecidableEq, Repr

/-- Whether the most-significant bit of a byte is set. -/
def msb_set (b : Byte) : Bool :=
  decide (b % 256 / 128 = 1)

/-- Modelled from the spec: `IntegerAsn1::is_negative` of the external picky
crate; a big-endian signed integer is negative exactly when the
most-significant bit of its first byte is set. -/
def IntegerAsn1.is_negative (bs : List Byte) : Bool :=
  match bs with
  | [] => false
  | b :: _ => msb_set b

/-- Modelled from the spec: `IntegerAsn1::as_unsigned_bytes_be` of the external
picky crate; drops the single sign-padding zero byte of a non-negative signed
big-endian integer, if present. -/
def IntegerAsn1.as_unsigned_bytes_be (bs : List Byte) : List Byte :=
  match bs with
  | 0 :: b :: rest => b :: rest
  | _ => bs

/-- Modelled from the spec: `IntegerAsn1::from_unsigned_bytes_be` of the
external picky crate; re-encodes an unsigned big-endian byte string as a
signed one, adding a leading zero byte exactly when the most-significant bit
of the value is set (so it is not misread as negative). -/
def IntegerAsn1.from_unsigned_bytes_be (bs : List Byte) : List Byte :=
  match bs with
  | [] => []
  | b :: _ => if msb_set b then 0 :: bs else bs

/-- Modelled from the spec: the body of the structured binary key format used
by `picky_asn1_der`, one tag-length-value block per integer. -/
def encode_der_integer (bs : List Byte) : List Byte :=
  2 :: bs.length :: bs

/-- Modelled from the spec: the structured binary serialization of an RSA
public key (modulus then public exponent) used on export. -/
def rsa_public_key_to_der (key : RSAPublicKey) : List Byte :=
  let body := encode_der_integer key.modulus ++ encode_der_integer key.public_exponent
  48 :: body.length :: body

/-- Modelled from the spec: `picky_asn1_der::to_vec` of the external picky
crate, which serializes a well-formed RSA public key structure; serialization
of the structures built here always succeeds. -/
def picky_asn1_der.to_vec (key : RSAPublicKey) : Except String (List Byte) :=
  .ok (rsa_public_key_to_der key)

/-- The `psa_import_key` operation payload consulted by this module.  The
caller-supplied secret bytes appear through the outcome of the external DER
parser (`picky_asn1_der::from_bytes`) on them. -/
structure ImportOp where
  key_name : String
  attributes : Attributes
  data_parse_result : Except Unit RSAPublicKey
deriving DecidableEq, Repr

/-- Collaborator outcomes for one import call: session acquisition and the
object-creation command. -/
structure ImportBackend where
  session_result : Except ResponseStatus Nat
  create_object_result : Except Nat Unit
deriving DecidableEq, Repr

/-- The fixed import template built by `psa_import_key_internal` (source lines
287-319) from the unsigned modulus and exponent bytes and the identifier. -/
def import_key_template (modulus_object exponent_object key_id : List Byte) :
    List CK_ATTRIBUTE :=
  [CK_ATTRIBUTE.mk CKA_CLASS (.ulong CKO_PUBLIC_KEY),
    CK_ATTRIBUTE.mk CKA_KEY_TYPE (.ulong CKK_RSA),
    CK_ATTRIBUTE.mk CKA_TOKEN (.flag true),
    CK_ATTRIBUTE.mk CKA_MODULUS (.bytes modulus_object),
    CK_ATTRIBUTE.mk CKA_PUBLIC_EXPONENT (.bytes exponent_object),
    CK_ATTRIBUTE.mk CKA_VERIFY (.flag true),
    CK_ATTRIBUTE.mk CKA_ENCRYPT (.flag true),
    CK_ATTRIBUTE.mk CKA_ID (.bytes key_id),
    CK_ATTRIBUTE.mk CKA_PRIVATE (.flag false),
    CK_ATTRIBUTE.mk CKA_ALLOWED_MECHANISMS (.mechs [CKM_RSA_PKCS])]

/-- Embedding of `psa_import_key_internal` (source lines 218-356).  Note that
the bits-mismatch branch (source lines 274-285) returns its error without
calling `remove_key_id`, unlike the parse-failure and negative-value branches
around it. -/
def psa_import_key_internal (backend : ImportBackend) (randoms : Nat → KeyId)
    (fuel : Nat) (app_name : String) (op : ImportOp) (st : ProviderState) :
    Option (Except ResponseStatus Unit × ProviderState × List TokenCall) :=
  if op.attributes.key_type ≠ KeyType.RsaPublicKey then
    some (.error .PsaErrorNotSupported, st, [])
  else
    let key_triple := KeyTriple.mk app_name ProviderID.Pkcs11 op.key_name
    match key_info_exists key_triple st.key_info_store with
    | .error e => some (.error e, st, [])
    | .ok true => some (.error .PsaErrorAlreadyExists, st, [])
    | .ok false =>
      match create_key_id randoms fuel key_triple op.attributes st.key_info_store
          st.local_ids with
      | none => none
      | some (.error e, store1, lids1) => some (.error e, ⟨store1, lids1⟩, [])
      | some (.ok key_id, store1, lids1) =>
        match op.data_parse_result with
        | .error _ =>
          match remove_key_id key_triple key_id store1 lids1 with
          | (.error e2, store2, lids2) => some (.error e2, ⟨store2, lids2⟩, [])
          | (.ok _, store2, lids2) =>
            some (.error .PsaErrorInvalidArgument, ⟨store2, lids2⟩, [])
        | .ok public_key =>
          if IntegerAsn1.is_negative public_key.modulus ||
              IntegerAsn1.is_negative public_key.public_exponent then
            match remove_key_id key_triple key_id store1 lids1 with
            | (.error e2, store2, lids2) => some (.error e2, ⟨store2, lids2⟩, [])
            | (.ok _, store2, lids2) =>
              some (.error .PsaErrorInvalidArgument, ⟨store2, lids2⟩, [])
          else
            let modulus_object := IntegerAsn1.as_unsigned_bytes_be public_key.modulus
            let exponent_object :=
              IntegerAsn1.as_unsigned_bytes_be public_key.public_exponent
            let bits := op.attributes.bits
            if bits ≠ 0 ∧ modulus_object.length * 8 ≠ bits then
              some (.error .PsaErrorInvalidArgument, ⟨store1, lids1⟩, [])
            else
              let template := import_key_template modulus_object exponent_object key_id
              match backend.session_result with
              | .error err =>
                match remove_key_id key_triple key_id store1 lids1 with
                | (.error e2, store2, lids2) =>
                  some (.error e2, ⟨store2, lids2⟩, [.open_session .ReadWrite])
                | (.ok _, store2, lids2) =>
                  some (.error err, ⟨store2, lids2⟩, [.open_session .ReadWrite])
              | .ok session =>
                match backend.create_object_result with
                | .ok _ =>
                  some (.ok (), ⟨store1, lids1⟩,
                    [.open_session .ReadWrite, .create_object session template])
                | .error e =>
                  match remove_key_id key_triple key_id store1 lids1 with
                  | (.error e2, store2, lids2) =>
                    some (.error e2, ⟨store2, lids2⟩,
                      [.open_session .ReadWrite, .create_object session template])
                  | (.ok _, store2, lids2) =>
                    some (.error (utils.to_response_status e), ⟨store2, lids2⟩,
                      [.open_session .ReadWrite, .create_object session template])

/-- The `psa_export_public_key` operation payload consulted by this module. -/
structure ExportOp where
  key_name : String
deriving DecidableEq, Repr

/-- Collaborator outcomes for one export call: session acquisition, the object
search, the attribute-length probe and the sized attribute read.  Each
attribute query carries the native return value and its payload. -/
structure ExportBackend where
  session_result : Except ResponseStatus Nat
  find_backend : FindBackend
  size_query_result : Except Nat (Nat × Nat × Nat)
  value_query_result : Except Nat (Nat × List Byte × List Byte)
deriving DecidableEq, Repr

/-- Embedding of `psa_export_public_key_internal` (source lines 358-452). -/
def psa_export_public_key_internal (backend : ExportBackend) (app_name : String)
    (op : ExportOp) (st : ProviderState) :
    Except ResponseStatus (List Byte) × ProviderState × List TokenCall :=
  let key_triple := KeyTriple.mk app_name ProviderID.Pkcs11 op.key_name
  match get_key_info key_triple st.key_info_store with
  | .error e => (.error e, st, [])
  | .ok (key_id, _key_attributes) =>
    match backend.session_result with
    | .error e => (.error e, st, [.open_session .ReadOnly])
    | .ok session =>
      match find_key backend.find_backend session key_id .PublicKey with
      | (.error e, calls) => (.error e, st, .open_session .ReadOnly :: calls)
      | (.ok key, calls) =>
        let size_attr_types := [CKA_MODULUS, CKA_PUBLIC_EXPONENT]
        let trace1 := .open_session .ReadOnly :: calls ++
          [.get_attribute_value session key size_attr_types]
        match backend.size_query_result with
        | .error e => (.error (utils.to_response_status e), st, trace1)
        | .ok (rv, _modulus_len, _public_exponent_len) =>
          if rv ≠ CKR_OK then
            (.error (utils.rv_to_response_status rv), st, trace1)
          else
            let trace2 := trace1 ++
              [.get_attribute_value session key [CKA_MODULUS, CKA_PUBLIC_EXPONENT]]
            match backend.value_query_result with
            | .error e => (.error (utils.to_response_status e), st, trace2)
            | .ok (rv2, modulus_bytes, public_exponent_bytes) =>
              if rv2 ≠ CKR_OK then
                (.error (utils.rv_to_response_status rv2), st, trace2)
              else
                let modulus := IntegerAsn1.from_unsigned_bytes_be modulus_bytes
                let public_exponent :=
                  IntegerAsn1.from_unsigned_bytes_be public_exponent_bytes
                let key_struct : RSAPublicKey := ⟨modulus, public_exponent⟩
                match picky_asn1_der.to_vec key_struct with
                | .error _ => (.error .PsaErrorCommunicationFailure, st, trace2)
                | .ok data => (.ok data, st, trace2)

/-- The `psa_destroy_key` operation payload consulted by this module. -/
structure DestroyOp where
  key_name : String
deriving DecidableEq, Repr

/-- Collaborator outcomes for one destroy call: session acquisition, then two
locate-and-destroy rounds. -/
structure DestroyBackend where
  session_result : Except ResponseStatus Nat
  find_backend_1 : FindBackend
  destroy_object_result_1 : Except Nat Unit
  find_backend_2 : FindBackend
  destroy_object_result_2 : Except Nat Unit
deriving DecidableEq, Repr

/-- Embedding of `psa_destroy_key_internal` (source lines 454-521). -/
def psa_destroy_key_internal (backend : DestroyBackend) (app_name : String)
    (op : DestroyOp) (st : ProviderState) :
    Except ResponseStatus Unit × ProviderState × List TokenCall :=
  let key_triple := KeyTriple.mk app_name ProviderID.Pkcs11 op.key_name
  match get_key_info key_triple st.key_info_store with
  | .error e => (.error e, st, [])
  | .ok (key_id, _) =>
    match backend.session_result with
    | .error e => (.error e, st, [.open_session .ReadWrite])
    | .ok session =>
      match find_key backend.find_backend_1 session key_id .Any with
      | (.error e, calls1) => (.error e, st, .open_session .ReadWrite :: calls1)
      | (.ok key, calls1) =>
        match backend.destroy_object_result_1 with
        | .error e =>
          (.error (utils.to_response_status e), st,
            .open_session .ReadWrite :: calls1 ++ [.destroy_object session key])
        | .ok _ =>
          let trace1 := .open_session .ReadWrite :: calls1 ++
            [.destroy_object session key]
          match find_key backend.find_backend_2 session key_id .Any with
          | (.ok key2, calls2) =>
            match backend.destroy_object_result_2 with
            | .error e =>
              (.error (utils.to_response_status e), st,
                trace1 ++ calls2 ++ [.destroy_object session key2])
            | .ok _ =>
              match remove_key_id key_triple key_id st.key_info_store st.local_ids with
              | (.error e2, store2, lids2) =>
                (.error e2, ⟨store2, lids2⟩,
                  trace1 ++ calls2 ++ [.destroy_object session key2])
              | (.ok _, store2, lids2) =>
                (.ok (), ⟨store2, lids2⟩,
                  trace1 ++ calls2 ++ [.destroy_object session key2])
          | (.error .PsaErrorDoesNotExist, calls2) =>
            match remove_key_id key_triple key_id st.key_info_store st.local_ids with
            | (.error e2, store2, lids2) =>
              (.error e2, ⟨store2, lids2⟩, trace1 ++ calls2)
            | (.ok _, store2, lids2) => (.ok (), ⟨store2, lids2⟩, trace1 ++ calls2)
          | (.error e, calls2) => (.error e, st, trace1 ++ calls2)

/-- The store-index consistency invariant: every live record identifier is in
the local identifier index, and distinct triples hold distinct identifiers. -/
def StoreIndexInv (st : ProviderState) : Prop :=
  (∀ t ki, mapLookup st.key_info_store.data t = some ki → ki.id ∈ st.local_ids) ∧
  (∀ t1 t2 ki1 ki2, mapLookup st.key_info_store.data t1 = some ki1 →
    mapLookup st.key_info_store.data t2 = some ki2 → t1 ≠ t2 → ki1.id ≠ ki2.id)

/-- The result component of a generate or import outcome. -/
def outcomeResult
    (o : Option (Except ResponseStatus Unit × ProviderState × List TokenCall)) :
    Option (Except ResponseStatus Unit) :=
  o.map (fun r => r.1)

/-- The final-state component of a generate or import outcome, with the
initial state as fallback for the fuel-exhausted case. -/
def outcomeState
    (o : Option (Except ResponseStatus Unit × ProviderState × List TokenCall))
    (st : ProviderState) : ProviderState :=
  (o.map (fun r => r.2.1)).getD st

/-- The token-call trace of a generate or import outcome. -/
def outcomeTrace
    (o : Option (Except ResponseStatus Unit × ProviderState × List TokenCall)) :
    List TokenCall :=
  (o.map (fun r => r.2.2)).getD []

/-- The numeric value of a big-endian byte string. -/
def beVal (bs : List Byte) : Nat :=
  bs.foldl (fun acc b => acc * 256 + b % 256) 0

theorem mapLookup_mapRemoveEntry (data : List (KeyTriple × KeyInfo)) (t u : KeyTriple) :
    mapLookup (mapRemoveEntry data t) u = if u = t then none else mapLookup data u := by
  induction data with
  | nil => simp [mapLookup, mapRemoveEntry]
  | cons p rest ih =>
    simp only [mapRemoveEntry]
    by_cases h1 : p.1 = t
    · rw [if_pos h1, ih]
      by_cases h2 : u = t
      · rw [if_pos h2, if_pos h2]
      · rw [if_neg h2, if_neg h2]
        have hpu : ¬ p.1 = u := fun hc => h2 (hc.symm.trans h1)
        simp [mapLookup, hpu]
    · rw [if_neg h1]
      simp only [mapLookup]
      by_cases h3 : p.1 = u
      · rw [if_pos h3]
        have h2 : ¬ u = t := fun hc => h1 (h3.trans hc)
        rw [if_neg h2, if_pos h3]
      · rw [if_neg h3, ih, if_neg h3]

theorem mapLookup_mapInsertEntry (data : List (KeyTriple × KeyInfo)) (t u : KeyTriple)
    (ki : KeyInfo) :
    mapLookup (mapInsertEntry data t ki) u =
      if u = t then some ki else mapLookup data u := by
  by_cases h : u = t
  · simp [mapInsertEntry, mapLookup, h]
  · have : ¬ t = u := fun hc => h (hc ▸ rfl)
    simp [mapInsertEntry, mapLookup, this, h, mapLookup_mapRemoveEntry]

theorem draw_key_id_not_mem (randoms : Nat → KeyId) (local_ids : LocalIdStore)
    (i fuel : Nat) (kid : KeyId) (h : draw_key_id randoms local_ids i fuel = some kid) :
    kid ∉ local_ids := by
  induction fuel generalizing i with
  | zero => simp [draw_key_id] at h
  | succ fuel ih =>
    simp only [draw_key_id] at h
    by_cases hc : idContains local_ids (randoms i)
    · rw [if_pos hc] at h
      exact ih _ h
    · rw [if_neg hc] at h
      cases h
      simpa [idContains] using hc

theorem idErase_of_not_mem (lids : LocalIdStore) (kid : KeyId) (h : kid ∉ lids) :
    idErase lids kid = lids := by
  unfold idErase
  rw [List.filter_eq_self]
  intro x hx
  simp only [decide_eq_true_eq]
  intro hc
  exact h (hc ▸ hx)

theorem idErase_idInsert (lids : LocalIdStore) (kid : KeyId) (h : kid ∉ lids) :
    idErase (idInsert lids kid) kid = lids := by
  unfold idInsert
  rw [if_neg h]
  unfold idErase
  rw [List.filter_cons_of_neg (by simp)]
  exact idErase_of_not_mem lids kid h

theorem not_mem_idErase (lids : LocalIdStore) (kid : KeyId) :
    kid ∉ idErase lids kid := by
  unfold idErase
  intro hc
  have := List.of_mem_filter hc
  simp at this

theorem mem_idErase_of_ne (lids : LocalIdStore) (a kid : KeyId) (hne : a ≠ kid)
    (ha : a ∈ lids) : a ∈ idErase lids kid := by
  unfold idErase
  exact List.mem_filter.mpr ⟨ha, by simpa using hne⟩

theorem mem_idInsert_self (lids : LocalIdStore) (kid : KeyId) :
    kid ∈ idInsert lids kid := by
  unfold idInsert
  by_cases h : kid ∈ lids
  · simp [h]
  · simp [h]

theorem mem_idInsert_of_mem (lids : LocalIdStore) (a kid : KeyId) (ha : a ∈ lids) :
    a ∈ idInsert lids kid := by
  unfold idInsert
  by_cases h : kid ∈ lids <;> simp [h, ha]

theorem idErase_idErase (lids : LocalIdStore) (kid : KeyId) :
    idErase (idErase lids kid) kid = idErase lids kid :=
  idErase_of_not_mem _ _ (not_mem_idErase lids kid)

/-- C1: the claim says every import that reserves a Key Record and then fails
validation of the key bytes (parse failure, negative value, or bits mismatch)
returns InvalidArgument with the reserved record compensated.  The code
violates this on the bits-mismatch branch: this theorem runs the import
embedding on a key whose modulus is 8 bits long while the requested bit
length is 16, and shows the call returns InvalidArgument yet the reserved
Key Record and its identifier are still present in the store and the local
identifier index afterwards. -/
theorem C1_import_bits_mismatch_leaves_reserved_record :
    psa_import_key_internal ⟨.ok 1, .ok ()⟩ (fun _ => [0, 0, 0, 7]) 1 "app"
        ⟨"leak", ⟨.RsaPublicKey, 16⟩, .ok ⟨[1], [1]⟩⟩ ⟨okStore [], []⟩ =
      some (.error .PsaErrorInvalidArgument,
        ⟨okStore [(⟨"app", .Pkcs11, "leak"⟩, ⟨[0, 0, 0, 7], ⟨.RsaPublicKey, 16⟩⟩)],
          [[0, 0, 0, 7]]⟩, []) ∧
    mapLookup [(⟨"app", .Pkcs11, "leak"⟩, ⟨[0, 0, 0, 7], ⟨.RsaPublicKey, 16⟩⟩)]
        ⟨"app", .Pkcs11, "leak"⟩ = some ⟨[0, 0, 0, 7], ⟨.RsaPublicKey, 16⟩⟩ ∧
    [0, 0, 0, 7] ∈ ([[0, 0, 0, 7]] : LocalIdStore) := by
  refine ⟨by decide, by decide, by decide⟩

/-- C4: a generate call on a triple that already has a record fails with
AlreadyExists, leaves the store and the local identifier index unchanged, and
issues no token calls at all. -/
theorem C4_generate_duplicate_already_exists (backend : GenerateBackend)
    (randoms : Nat → KeyId) (fuel : Nat) (app_name : String) (op : GenerateOp)
    (data : List (KeyTriple × KeyInfo)) (lids : LocalIdStore) (ki : KeyInfo)
    (hty : op.attributes.key_type = KeyType.RsaKeyPair)
    (hex : mapLookup data (KeyTriple.mk app_name ProviderID.Pkcs11 op.key_name) =
      some ki) :
    psa_generate_key_internal backend randoms fuel app_name op ⟨okStore data, lids⟩ =
      some (.error .PsaErrorAlreadyExists, ⟨okStore data, lids⟩, []) := by
  unfold psa_generate_key_internal
  simp [hty, key_info_exists, StoreBehavior.containsKey, okStore, hex]

/-- C4 witness: a concrete duplicate generate call. -/
theorem C4_generate_duplicate_already_exists_witness :
    psa_generate_key_internal ⟨.ok 1, .ok ()⟩ (fun _ => [0, 0, 0, 1]) 1 "app"
        ⟨"key", ⟨.RsaKeyPair, 1024⟩⟩
        ⟨okStore [(⟨"app", .Pkcs11, "key"⟩, ⟨[9, 9, 9, 9], ⟨.RsaKeyPair, 1024⟩⟩)],
          [[9, 9, 9, 9]]⟩ =
      some (.error .PsaErrorAlreadyExists,
        ⟨okStore [(⟨"app", .Pkcs11, "key"⟩, ⟨[9, 9, 9, 9], ⟨.RsaKeyPair, 1024⟩⟩)],
          [[9, 9, 9, 9]]⟩, []) :=
  C4_generate_duplicate_already_exists ⟨.ok 1, .ok ()⟩ (fun _ => [0, 0, 0, 1]) 1 "app"
    ⟨"key", ⟨.RsaKeyPair, 1024⟩⟩
    [(⟨"app", .Pkcs11, "key"⟩, ⟨[9, 9, 9, 9], ⟨.RsaKeyPair, 1024⟩⟩)]
    [[9, 9, 9, 9]] ⟨[9, 9, 9, 9], ⟨.RsaKeyPair, 1024⟩⟩ rfl (by decide)

/-- C6: the key-info lookup contract: no record gives DoesNotExist; a stored
identifier that is not exactly 4 bytes gives KeyInfoManagerError (the spec's
CorruptRecord); a backend error is normalized into the provider error
vocabulary; otherwise the stored identifier and attributes are returned
unchanged. -/
theorem C6_get_key_info_contract :
    (∀ t data, mapLookup data t = none →
      get_key_info t (okStore data) = .error .PsaErrorDoesNotExist) ∧
    (∀ t data ki, mapLookup data t = some ki → ki.id.length ≠ 4 →
      get_key_info t (okStore data) = .error .KeyInfoManagerError) ∧
    (∀ t data ki, mapLookup data t = some ki → ki.id.length = 4 →
      get_key_info t (okStore data) = .ok (ki.id, ki.attributes)) ∧
    (∀ t s msg, s.getFault = some msg →
      get_key_info t s = .error (key_info_managers.to_response_status msg)) := by
  refine ⟨?_, ?_, ?_, ?_⟩
  · intro t data h
    simp [get_key_info, StoreBehavior.get, okStore, h]
  · intro t data ki h hlen
    simp [get_key_info, StoreBehavior.get, okStore, h, hlen]
  · intro t data ki h hlen
    simp [get_key_info, StoreBehavior.get, okStore, h, hlen]
  · intro t s msg h
    simp [get_key_info, StoreBehavior.get, h]

/-- C6 witness: the four lookup outcomes at concrete inputs. -/
theorem C6_get_key_info_contract_witness :
    get_key_info ⟨"a", .Pkcs11, "k"⟩ (okStore []) = .error .PsaErrorDoesNotExist ∧
    get_key_info ⟨"a", .Pkcs11, "k"⟩
        (okStore [(⟨"a", .Pkcs11, "k"⟩, ⟨[1, 2, 3], ⟨.RsaKeyPair, 0⟩⟩)]) =
      .error .KeyInfoManagerError ∧
    get_key_info ⟨"a", .Pkcs11, "k"⟩
        (okStore [(⟨"a", .Pkcs11, "k"⟩, ⟨[1, 2, 3, 4], ⟨.RsaKeyPair, 0⟩⟩)]) =
      .ok ([1, 2, 3, 4], ⟨.RsaKeyPair, 0⟩) ∧
    get_key_info ⟨"a", .Pkcs11, "k"⟩ ⟨[], some "boom", none, none, none⟩ =
      .error (key_info_managers.to_response_status "boom") :=
  ⟨C6_get_key_info_contract.1 ⟨"a", .Pkcs11, "k"⟩ [] (by decide),
    C6_get_key_info_contract.2.1 ⟨"a", .Pkcs11, "k"⟩ _ ⟨[1, 2, 3], ⟨.RsaKeyPair, 0⟩⟩
      (by decide) (by decide),
    C6_get_key_info_contract.2.2.1 ⟨"a", .Pkcs11, "k"⟩ _ ⟨[1, 2, 3, 4], ⟨.RsaKeyPair, 0⟩⟩
      (by decide) (by decide),
    C6_get_key_info_contract.2.2.2 ⟨"a", .Pkcs11, "k"⟩ ⟨[], some "boom", none, none, none⟩
      "boom" rfl⟩

/-- C8: remove_key_id is idempotent with respect to the local identifier
index: evicting an identifier that is not in the index is a no-op rather than
an error, and once one remove has succeeded, a second remove of the same
identifier also succeeds and leaves the index where the first one put it. -/
theorem C8_remove_key_id_idempotent :
    (∀ t kid store lids, store.removeFault = none → kid ∉ lids →
      remove_key_id t kid store lids =
        (.ok (), { store with data := mapRemoveEntry store.data t }, lids)) ∧
    (∀ t kid store lids r store1 lids1,
      remove_key_id t kid store lids = (.ok r, store1, lids1) →
      remove_key_id t kid store1 lids1 =
        (.ok (), { store1 with data := mapRemoveEntry store1.data t }, lids1)) := by
  constructor
  · intro t kid store lids hf hmem
    simp [remove_key_id, StoreBehavior.remove, hf, idErase_of_not_mem _ _ hmem]
  · intro t kid store lids r store1 lids1 h
    unfold remove_key_id StoreBehavior.remove at h ⊢
    cases hf : store.removeFault with
    | some e => rw [hf] at h; simp at h
    | none =>
      rw [hf] at h
      simp only [Prod.mk.injEq] at h
      obtain ⟨-, h2, h3⟩ := h
      subst h2
      subst h3
      simp [hf, idErase_idErase]

/-- C8 witness: a concrete double remove. -/
theorem C8_remove_key_id_idempotent_witness :
    remove_key_id ⟨"a", .Pkcs11, "k"⟩ [0, 0, 0, 1]
        (okStore [(⟨"a", .Pkcs11, "k"⟩, ⟨[0, 0, 0, 1], ⟨.RsaPublicKey, 0⟩⟩)])
        [[0, 0, 0, 2]] =
      (.ok (), okStore (mapRemoveEntry
        [(⟨"a", .Pkcs11, "k"⟩, ⟨[0, 0, 0, 1], ⟨.RsaPublicKey, 0⟩⟩)] ⟨"a", .Pkcs11, "k"⟩),
        [[0, 0, 0, 2]]) ∧
    remove_key_id ⟨"a", .Pkcs11, "k"⟩ [0, 0, 0, 1] (okStore []) [[0, 0, 0, 1]] =
      (.ok (), okStore [], idErase [[0, 0, 0, 1]] [0, 0, 0, 1]) ∧
    remove_key_id ⟨"a", .Pkcs11, "k"⟩ [0, 0, 0, 1] (okStore [])
        (idErase [[0, 0, 0, 1]] [0, 0, 0, 1]) =
      (.ok (), okStore (mapRemoveEntry [] ⟨"a", .Pkcs11, "k"⟩),
        idErase [[0, 0, 0, 1]] [0, 0, 0, 1]) :=
  ⟨C8_remove_key_id_idempotent.1 ⟨"a", .Pkcs11, "k"⟩ [0, 0, 0, 1]
      (okStore [(⟨"a", .Pkcs11, "k"⟩, ⟨[0, 0, 0, 1], ⟨.RsaPublicKey, 0⟩⟩)])
      [[0, 0, 0, 2]] rfl (by decide),
    by decide,
    C8_remove_key_id_idempotent.2 ⟨"a", .Pkcs11, "k"⟩ [0, 0, 0, 1] (okStore [])
      [[0, 0, 0, 1]] () (okStore []) (idErase [[0, 0, 0, 1]] [0, 0, 0, 1]) (by decide)⟩

/-- C10: export never mutates the metadata store or the local identifier
index: whatever the collaborator outcomes, the provider state coming out of
psa_export_public_key_internal is the state that went in. -/
theorem C10_export_preserves_state (backend : ExportBackend) (app_name : String)
    (op : ExportOp) (st : ProviderState) :
    (psa_export_public_key_internal backend app_name op st).2.1 = st := by
  simp only [psa_export_public_key_internal]
  repeat' split
  all_goals rfl

/-- C7 counterexample: the claim says the search is explicitly finalized
regardless of outcome, but when the enumerate step fails the code returns the
translated error without ever issuing the finalize call. -/
theorem C7_find_key_counterexample :
    (find_key ⟨.ok (), .error 5, .ok ()⟩ 1 [0, 0, 0, 1] .Any).2 =
      [.find_objects_init 1 (find_key_template [0, 0, 0, 1] .Any),
        .find_objects 1 1] ∧
    TokenCall.find_objects_final 1 ∉
      (find_key ⟨.ok (), .error 5, .ok ()⟩ 1 [0, 0, 0, 1] .Any).2 :=
  ⟨by decide, by decide⟩

/-- C7 (amended): the object locator includes the object-class attribute in
the search template exactly when the role is not Any; an empty successful
search yields DoesNotExist; the search is finalized whenever the enumerate
step succeeds, whether or not an object was found; a non-empty successful
search returns the first object; and a protocol failure at the init,
enumerate or finalize step is propagated as a translated token error, the
enumerate failure without a finalize call. -/
theorem C7_find_key_contract_amended :
    (∀ kid kt, (∃ v, CK_ATTRIBUTE.mk CKA_CLASS v ∈ find_key_template kid kt) ↔
      kt ≠ KeyPairType.Any) ∧
    (∀ b s kid kt, b.find_objects_init_result = .ok () →
      b.find_objects_result = .ok [] → b.find_objects_final_result = .ok () →
      (find_key b s kid kt).1 = .error .PsaErrorDoesNotExist) ∧
    (∀ b s kid kt objs, b.find_objects_init_result = .ok () →
      b.find_objects_result = .ok objs →
      TokenCall.find_objects_final s ∈ (find_key b s kid kt).2) ∧
    (∀ b s kid kt k objs, b.find_objects_init_result = .ok () →
      b.find_objects_result = .ok (k :: objs) → b.find_objects_final_result = .ok () →
      (find_key b s kid kt).1 = .ok k) ∧
    (∀ b s kid kt e, b.find_objects_init_result = .error e →
      (find_key b s kid kt).1 = .error (utils.to_response_status e)) ∧
    (∀ b s kid kt e, b.find_objects_init_result = .ok () →
      b.find_objects_result = .error e →
      (find_key b s kid kt).1 = .error (utils.to_response_status e) ∧
      TokenCall.find_objects_final s ∉ (find_key b s kid kt).2) ∧
    (∀ b s kid kt objs e, b.find_objects_init_result = .ok () →
      b.find_objects_result = .ok objs → b.find_objects_final_result = .error e →
      (find_key b s kid kt).1 = .error (utils.to_response_status e)) := by
  refine ⟨?_, ?_, ?_, ?_, ?_, ?_, ?_⟩
  · intro kid kt
    cases kt with
    | PublicKey =>
      exact iff_of_true ⟨.ulong CKO_PUBLIC_KEY, by simp [find_key_template]⟩ (by decide)
    | PrivateKey =>
      exact iff_of_true ⟨.ulong CKO_PRIVATE_KEY, by simp [find_key_template]⟩ (by decide)
    | Any =>
      simp [find_key_template, CKA_CLASS, CKA_ID]
  · intro b s kid kt h1 h2 h3
    simp [find_key, h1, h2, h3]
  · intro b s kid kt objs h1 h2
    cases h3 : b.find_objects_final_result with
    | error e => simp [find_key, h1, h2, h3]
    | ok u =>
      by_cases hobjs : objs.isEmpty <;> simp [find_key, h1, h2, h3, hobjs]
  · intro b s kid kt k objs h1 h2 h3
    simp [find_key, h1, h2, h3]
  · intro b s kid kt e h1
    simp [find_key, h1]
  · intro b s kid kt e h1 h2
    constructor <;> simp [find_key, h1, h2]
  · intro b s kid kt objs e h1 h2 h3
    simp [find_key, h1, h2, h3]

/-- C7 witness: the amended contract at concrete search outcomes. -/
theorem C7_find_key_contract_amended_witness :
    ((∃ v, CK_ATTRIBUTE.mk CKA_CLASS v ∈ find_key_template [0, 0, 0, 1] .PublicKey) ↔
      KeyPairType.PublicKey ≠ KeyPairType.Any) ∧
    (find_key ⟨.ok (), .ok [], .ok ()⟩ 3 [0, 0, 0, 1] .Any).1 =
      .error .PsaErrorDoesNotExist ∧
    TokenCall.find_objects_final 3 ∈
      (find_key ⟨.ok (), .ok [], .ok ()⟩ 3 [0, 0, 0, 1] .Any).2 ∧
    (find_key ⟨.ok (), .ok [44], .ok ()⟩ 3 [0, 0, 0, 1] .Any).1 = .ok 44 ∧
    (find_key ⟨.error 7, .ok [], .ok ()⟩ 3 [0, 0, 0, 1] .Any).1 =
      .error (utils.to_response_status 7) ∧
    ((find_key ⟨.ok (), .error 5, .ok ()⟩ 3 [0, 0, 0, 1] .Any).1 =
        .error (utils.to_response_status 5) ∧
      TokenCall.find_objects_final 3 ∉
        (find_key ⟨.ok (), .error 5, .ok ()⟩ 3 [0, 0, 0, 1] .Any).2) ∧
    (find_key ⟨.ok (), .ok [44], .error 9⟩ 3 [0, 0, 0, 1] .Any).1 =
      .error (utils.to_response_status 9) :=
  ⟨C7_find_key_contract_amended.1 [0, 0, 0, 1] .PublicKey,
    C7_find_key_contract_amended.2.1 ⟨.ok (), .ok [], .ok ()⟩ 3 [0, 0, 0, 1] .Any
      rfl rfl rfl,
    C7_find_key_contract_amended.2.2.1 ⟨.ok (), .ok [], .ok ()⟩ 3 [0, 0, 0, 1] .Any
      [] rfl rfl,
    C7_find_key_contract_amended.2.2.2.1 ⟨.ok (), .ok [44], .ok ()⟩ 3 [0, 0, 0, 1] .Any
      44 [] rfl rfl rfl,
    C7_find_key_contract_amended.2.2.2.2.1 ⟨.error 7, .ok [], .ok ()⟩ 3 [0, 0, 0, 1]
      .Any 7 rfl,
    C7_find_key_contract_amended.2.2.2.2.2.1 ⟨.ok (), .error 5, .ok ()⟩ 3 [0, 0, 0, 1]
      .Any 5 rfl rfl,
    C7_find_key_contract_amended.2.2.2.2.2.2 ⟨.ok (), .ok [44], .error 9⟩ 3 [0, 0, 0, 1]
      .Any [44] 9 rfl rfl rfl⟩

/-- C2: for every generate or import call that has reserved a Key Record, a
failure of session acquisition or of the token command (key-pair generation
for generate, object creation for import) removes the reserved record before
the error is returned: the final store holds no record for the triple and the
local identifier index is back to its initial contents. -/
theorem C2_generate_import_failure_compensation :
    (∀ randoms fuel app_name (op : GenerateOp) data lids serr gres kid,
      op.attributes.key_type = KeyType.RsaKeyPair →
      mapLookup data (KeyTriple.mk app_name ProviderID.Pkcs11 op.key_name) = none →
      draw_key_id randoms lids 0 fuel = some kid →
      outcomeResult (psa_generate_key_internal ⟨.error serr, gres⟩ randoms fuel
          app_name op ⟨okStore data, lids⟩) = some (.error serr) ∧
      mapLookup (outcomeState (psa_generate_key_internal ⟨.error serr, gres⟩ randoms
          fuel app_name op ⟨okStore data, lids⟩)
            ⟨okStore data, lids⟩).key_info_store.data
          (KeyTriple.mk app_name ProviderID.Pkcs11 op.key_name) = none ∧
      (outcomeState (psa_generate_key_internal ⟨.error serr, gres⟩ randoms fuel
          app_name op ⟨okStore data, lids⟩) ⟨okStore data, lids⟩).local_ids = lids) ∧
    (∀ randoms fuel app_name (op : GenerateOp) data lids s ge kid,
      op.attributes.key_type = KeyType.RsaKeyPair →
      mapLookup data (KeyTriple.mk app_name ProviderID.Pkcs11 op.key_name) = none →
      draw_key_id randoms lids 0 fuel = some kid →
      outcomeResult (psa_generate_key_internal ⟨.ok s, .error ge⟩ randoms fuel
          app_name op ⟨okStore data, lids⟩) =
        some (.error (utils.to_response_status ge)) ∧
      mapLookup (outcomeState (psa_generate_key_internal ⟨.ok s, .error ge⟩ randoms
          fuel app_name op ⟨okStore data, lids⟩)
            ⟨okStore data, lids⟩).key_info_store.data
          (KeyTriple.mk app_name ProviderID.Pkcs11 op.key_name) = none ∧
      (outcomeState (psa_generate_key_internal ⟨.ok s, .error ge⟩ randoms fuel
          app_name op ⟨okStore data, lids⟩) ⟨okStore data, lids⟩).local_ids = lids) ∧
    (∀ randoms fuel app_name (op : ImportOp) data lids serr cres kid pk,
      op.attributes.key_type = KeyType.RsaPublicKey →
      mapLookup data (KeyTriple.mk app_name ProviderID.Pkcs11 op.key_name) = none →
      draw_key_id randoms lids 0 fuel = some kid →
      op.data_parse_result = .ok pk →
      IntegerAsn1.is_negative pk.modulus = false →
      IntegerAsn1.is_negative pk.public_exponent = false →
      ¬(op.attributes.bits ≠ 0 ∧
        (IntegerAsn1.as_unsigned_bytes_be pk.modulus).length * 8 ≠
          op.attributes.bits) →
      outcomeResult (psa_import_key_internal ⟨.error serr, cres⟩ randoms fuel
          app_name op ⟨okStore data, lids⟩) = some (.error serr) ∧
      mapLookup (outcomeState (psa_import_key_internal ⟨.error serr, cres⟩ randoms
          fuel app_name op ⟨okStore data, lids⟩)
            ⟨okStore data, lids⟩).key_info_store.data
          (KeyTriple.mk app_name ProviderID.Pkcs11 op.key_name) = none ∧
      (outcomeState (psa_import_key_internal ⟨.error serr, cres⟩ randoms fuel
          app_name op ⟨okStore data, lids⟩) ⟨okStore data, lids⟩).local_ids = lids) ∧
    (∀ randoms fuel app_name (op : ImportOp) data lids s ce kid pk,
      op.attributes.key_type = KeyType.RsaPublicKey →
      mapLookup data (KeyTriple.mk app_name ProviderID.Pkcs11 op.key_name) = none →
      draw_key_id randoms lids 0 fuel = some kid →
      op.data_parse_result = .ok pk →
      IntegerAsn1.is_negative pk.modulus = false →
      IntegerAsn1.is_negative pk.public_exponent = false →
      ¬(op.attributes.bits ≠ 0 ∧
        (IntegerAsn1.as_unsigned_bytes_be pk.modulus).length * 8 ≠
          op.attributes.bits) →
      outcomeResult (psa_import_key_internal ⟨.ok s, .error ce⟩ randoms fuel
          app_name op ⟨okStore data, lids⟩) =
        some (.error (utils.to_response_status ce)) ∧
      mapLookup (outcomeState (psa_import_key_internal ⟨.ok s, .error ce⟩ randoms
          fuel app_name op ⟨okStore data, lids⟩)
            ⟨okStore data, lids⟩).key_info_store.data
          (KeyTriple.mk app_name ProviderID.Pkcs11 op.key_name) = none ∧
      (outcomeState (psa_import_key_internal ⟨.ok s, .error ce⟩ randoms fuel
          app_name op ⟨okStore data, lids⟩) ⟨okStore data, lids⟩).local_ids = lids) := by
  refine ⟨?_, ?_, ?_, ?_⟩
  · intro randoms fuel app_name op data lids serr gres kid hty hlook hdraw
    have hfresh := draw_key_id_not_mem randoms lids 0 fuel kid hdraw
    refine ⟨?_, ?_, ?_⟩ <;>
      simp [outcomeResult, outcomeState, psa_generate_key_internal, key_info_exists,
        StoreBehavior.containsKey, okStore, create_key_id, StoreBehavior.insert,
        remove_key_id, StoreBehavior.remove, utils.parsec_to_pkcs11_params, hty,
        hlook, hdraw, idErase_idInsert _ _ hfresh, mapLookup_mapRemoveEntry]
  · intro randoms fuel app_name op data lids s ge kid hty hlook hdraw
    have hfresh := draw_key_id_not_mem randoms lids 0 fuel kid hdraw
    refine ⟨?_, ?_, ?_⟩ <;>
      simp [outcomeResult, outcomeState, psa_generate_key_internal, key_info_exists,
        StoreBehavior.containsKey, okStore, create_key_id, StoreBehavior.insert,
        remove_key_id, StoreBehavior.remove, utils.parsec_to_pkcs11_params, hty,
        hlook, hdraw, idErase_idInsert _ _ hfresh, mapLookup_mapRemoveEntry]
  · intro randoms fuel app_name op data lids serr cres kid pk hty hlook hdraw hparse
      hnegm hnege hbits
    have hfresh := draw_key_id_not_mem randoms lids 0 fuel kid hdraw
    refine ⟨?_, ?_, ?_⟩ <;>
      simp [outcomeResult, outcomeState, psa_import_key_internal, key_info_exists,
        StoreBehavior.containsKey, okStore, create_key_id, StoreBehavior.insert,
        remove_key_id, StoreBehavior.remove, hty, hlook, hdraw, hparse, hnegm,
        hnege, hbits, idErase_idInsert _ _ hfresh, mapLookup_mapRemoveEntry]
  · intro randoms fuel app_name op data lids s ce kid pk hty hlook hdraw hparse
      hnegm hnege hbits
    have hfresh := draw_key_id_not_mem randoms lids 0 fuel kid hdraw
    refine ⟨?_, ?_, ?_⟩ <;>
      simp [outcomeResult, outcomeState, psa_import_key_internal, key_info_exists,
        StoreBehavior.containsKey, okStore, create_key_id, StoreBehavior.insert,
        remove_key_id, StoreBehavior.remove, hty, hlook, hdraw, hparse, hnegm,
        hnege, hbits, idErase_idInsert _ _ hfresh, mapLookup_mapRemoveEntry]

/-- C2 witness: concrete failing generate and import calls, at session
acquisition and at the token command, each leaving no record behind. -/
theorem C2_generate_import_failure_compensation_witness :
    (outcomeResult (psa_generate_key_internal ⟨.error (.TokenError 5), .ok ()⟩
        (fun _ => [0, 0, 0, 7]) 1 "app" ⟨"k", ⟨.RsaKeyPair, 1024⟩⟩
        ⟨okStore [], []⟩) = some (.error (.TokenError 5)) ∧
      mapLookup (outcomeState (psa_generate_key_internal ⟨.error (.TokenError 5), .ok ()⟩
          (fun _ => [0, 0, 0, 7]) 1 "app" ⟨"k", ⟨.RsaKeyPair, 1024⟩⟩
          ⟨okStore [], []⟩) ⟨okStore [], []⟩).key_info_store.data
        (KeyTriple.mk "app" ProviderID.Pkcs11 "k") = none ∧
      (outcomeState (psa_generate_key_internal ⟨.error (.TokenError 5), .ok ()⟩
          (fun _ => [0, 0, 0, 7]) 1 "app" ⟨"k", ⟨.RsaKeyPair, 1024⟩⟩
          ⟨okStore [], []⟩) ⟨okStore [], []⟩).local_ids = []) ∧
    (outcomeResult (psa_generate_key_internal ⟨.ok 3, .error 9⟩
        (fun _ => [0, 0, 0, 7]) 1 "app" ⟨"k", ⟨.RsaKeyPair, 1024⟩⟩
        ⟨okStore [], []⟩) = some (.error (utils.to_response_status 9)) ∧
      mapLookup (outcomeState (psa_generate_key_internal ⟨.ok 3, .error 9⟩
          (fun _ => [0, 0, 0, 7]) 1 "app" ⟨"k", ⟨.RsaKeyPair, 1024⟩⟩
          ⟨okStore [], []⟩) ⟨okStore [], []⟩).key_info_store.data
        (KeyTriple.mk "app" ProviderID.Pkcs11 "k") = none ∧
      (outcomeState (psa_generate_key_internal ⟨.ok 3, .error 9⟩
          (fun _ => [0, 0, 0, 7]) 1 "app" ⟨"k", ⟨.RsaKeyPair, 1024⟩⟩
          ⟨okStore [], []⟩) ⟨okStore [], []⟩).local_ids = []) ∧
    (outcomeResult (psa_import_key_internal ⟨.error (.TokenError 5), .ok ()⟩
        (fun _ => [0, 0, 0, 7]) 1 "app" ⟨"k", ⟨.RsaPublicKey, 0⟩, .ok ⟨[1], [1]⟩⟩
        ⟨okStore [], []⟩) = some (.error (.TokenError 5)) ∧
      mapLookup (outcomeState (psa_import_key_internal ⟨.error (.TokenError 5), .ok ()⟩
          (fun _ => [0, 0, 0, 7]) 1 "app" ⟨"k", ⟨.RsaPublicKey, 0⟩, .ok ⟨[1], [1]⟩⟩
          ⟨okStore [], []⟩) ⟨okStore [], []⟩).key_info_store.data
        (KeyTriple.mk "app" ProviderID.Pkcs11 "k") = none ∧
      (outcomeState (psa_import_key_internal ⟨.error (.TokenError 5), .ok ()⟩
          (fun _ => [0, 0, 0, 7]) 1 "app" ⟨"k", ⟨.RsaPublicKey, 0⟩, .ok ⟨[1], [1]⟩⟩
          ⟨okStore [], []⟩) ⟨okStore [], []⟩).local_ids = []) ∧
    (outcomeResult (psa_import_key_internal ⟨.ok 3, .error 9⟩
        (fun _ => [0, 0, 0, 7]) 1 "app" ⟨"k", ⟨.RsaPublicKey, 0⟩, .ok ⟨[1], [1]⟩⟩
        ⟨okStore [], []⟩) = some (.error (utils.to_response_status 9)) ∧
      mapLookup (outcomeState (psa_import_key_internal ⟨.ok 3, .error 9⟩
          (fun _ => [0, 0, 0, 7]) 1 "app" ⟨"k", ⟨.RsaPublicKey, 0⟩, .ok ⟨[1], [1]⟩⟩
          ⟨okStore [], []⟩) ⟨okStore [], []⟩).key_info_store.data
        (KeyTriple.mk "app" ProviderID.Pkcs11 "k") = none ∧
      (outcomeState (psa_import_key_internal ⟨.ok 3, .error 9⟩
          (fun _ => [0, 0, 0, 7]) 1 "app" ⟨"k", ⟨.RsaPublicKey, 0⟩, .ok ⟨[1], [1]⟩⟩
          ⟨okStore [], []⟩) ⟨okStore [], []⟩).local_ids = []) :=
  ⟨C2_generate_import_failure_compensation.1 (fun _ => [0, 0, 0, 7]) 1 "app"
      ⟨"k", ⟨.RsaKeyPair, 1024⟩⟩ [] [] (.TokenError 5) (.ok ()) [0, 0, 0, 7]
      rfl rfl (by decide),
    C2_generate_import_failure_compensation.2.1 (fun _ => [0, 0, 0, 7]) 1 "app"
      ⟨"k", ⟨.RsaKeyPair, 1024⟩⟩ [] [] 3 9 [0, 0, 0, 7] rfl rfl (by decide),
    C2_generate_import_failure_compensation.2.2.1 (fun _ => [0, 0, 0, 7]) 1 "app"
      ⟨"k", ⟨.RsaPublicKey, 0⟩, .ok ⟨[1], [1]⟩⟩ [] [] (.TokenError 5) (.ok ())
      [0, 0, 0, 7] ⟨[1], [1]⟩ rfl rfl (by decide) rfl (by decide) (by decide)
      (by decide),
    C2_generate_import_failure_compensation.2.2.2 (fun _ => [0, 0, 0, 7]) 1 "app"
      ⟨"k", ⟨.RsaPublicKey, 0⟩, .ok ⟨[1], [1]⟩⟩ [] [] 3 9 [0, 0, 0, 7] ⟨[1], [1]⟩
      rfl rfl (by decide) rfl (by decide) (by decide) (by decide)⟩

/-- C3: the destroy contract: destroying the first located object is
mandatory (a failure to locate or destroy it aborts with that error and the
record stays); a second locate failing with DoesNotExist is swallowed and the
operation still succeeds and removes the record; any other failure of the
second locate or destroy is fatal and leaves the record; the record is
removed from the store only on the paths where both destroy attempts
completed without a fatal error. -/
theorem C3_destroy_two_phase :
    (∀ data lids app_name (op : DestroyOp) kid attrs s fb1 d1 fb2 d2 e,
      mapLookup data (KeyTriple.mk app_name ProviderID.Pkcs11 op.key_name) =
        some ⟨kid, attrs⟩ →
      kid.length = 4 →
      (find_key fb1 s kid .Any).1 = .error e →
      (psa_destroy_key_internal ⟨.ok s, fb1, d1, fb2, d2⟩ app_name op
          ⟨okStore data, lids⟩).1 = .error e ∧
      (psa_destroy_key_internal ⟨.ok s, fb1, d1, fb2, d2⟩ app_name op
          ⟨okStore data, lids⟩).2.1 = ⟨okStore data, lids⟩) ∧
    (∀ data lids app_name (op : DestroyOp) kid attrs s fb1 fb2 d2 k e,
      mapLookup data (KeyTriple.mk app_name ProviderID.Pkcs11 op.key_name) =
        some ⟨kid, attrs⟩ →
      kid.length = 4 →
      (find_key fb1 s kid .Any).1 = .ok k →
      (psa_destroy_key_internal ⟨.ok s, fb1, .error e, fb2, d2⟩ app_name op
          ⟨okStore data, lids⟩).1 = .error (utils.to_response_status e) ∧
      (psa_destroy_key_internal ⟨.ok s, fb1, .error e, fb2, d2⟩ app_name op
          ⟨okStore data, lids⟩).2.1 = ⟨okStore data, lids⟩) ∧
    (∀ data lids app_name (op : DestroyOp) kid attrs s fb1 fb2 d2 k,
      mapLookup data (KeyTriple.mk app_name ProviderID.Pkcs11 op.key_name) =
        some ⟨kid, attrs⟩ →
      kid.length = 4 →
      (find_key fb1 s kid .Any).1 = .ok k →
      (find_key fb2 s kid .Any).1 = .error .PsaErrorDoesNotExist →
      (psa_destroy_key_internal ⟨.ok s, fb1, .ok (), fb2, d2⟩ app_name op
          ⟨okStore data, lids⟩).1 = .ok () ∧
      mapLookup ((psa_destroy_key_internal ⟨.ok s, fb1, .ok (), fb2, d2⟩ app_name op
          ⟨okStore data, lids⟩).2.1).key_info_store.data
        (KeyTriple.mk app_name ProviderID.Pkcs11 op.key_name) = none ∧
      ((psa_destroy_key_internal ⟨.ok s, fb1, .ok (), fb2, d2⟩ app_name op
          ⟨okStore data, lids⟩).2.1).local_ids = idErase lids kid) ∧
    (∀ data lids app_name (op : DestroyOp) kid attrs s fb1 fb2 d2 k e,
      mapLookup data (KeyTriple.mk app_name ProviderID.Pkcs11 op.key_name) =
        some ⟨kid, attrs⟩ →
      kid.length = 4 →
      (find_key fb1 s kid .Any).1 = .ok k →
      (find_key fb2 s kid .Any).1 = .error e →
      e ≠ .PsaErrorDoesNotExist →
      (psa_destroy_key_internal ⟨.ok s, fb1, .ok (), fb2, d2⟩ app_name op
          ⟨okStore data, lids⟩).1 = .error e ∧
      (psa_destroy_key_internal ⟨.ok s, fb1, .ok (), fb2, d2⟩ app_name op
          ⟨okStore data, lids⟩).2.1 = ⟨okStore data, lids⟩) ∧
    (∀ data lids app_name (op : DestroyOp) kid attrs s fb1 fb2 k k2 e,
      mapLookup data (KeyTriple.mk app_name ProviderID.Pkcs11 op.key_name) =
        some ⟨kid, attrs⟩ →
      kid.length = 4 →
      (find_key fb1 s kid .Any).1 = .ok k →
      (find_key fb2 s kid .Any).1 = .ok k2 →
      (psa_destroy_key_internal ⟨.ok s, fb1, .ok (), fb2, .error e⟩ app_name op
          ⟨okStore data, lids⟩).1 = .error (utils.to_response_status e) ∧
      (psa_destroy_key_internal ⟨.ok s, fb1, .ok (), fb2, .error e⟩ app_name op
          ⟨okStore data, lids⟩).2.1 = ⟨okStore data, lids⟩) ∧
    (∀ data lids app_name (op : DestroyOp) kid attrs s fb1 fb2 k k2,
      mapLookup data (KeyTriple.mk app_name ProviderID.Pkcs11 op.key_name) =
        some ⟨kid, attrs⟩ →
      kid.length = 4 →
      (find_key fb1 s kid .Any).1 = .ok k →
      (find_key fb2 s kid .Any).1 = .ok k2 →
      (psa_destroy_key_internal ⟨.ok s, fb1, .ok (), fb2, .ok ()⟩ app_name op
          ⟨okStore data, lids⟩).1 = .ok () ∧
      mapLookup ((psa_destroy_key_internal ⟨.ok s, fb1, .ok (), fb2, .ok ()⟩ app_name
          op ⟨okStore data, lids⟩).2.1).key_info_store.data
        (KeyTriple.mk app_name ProviderID.Pkcs11 op.key_name) = none ∧
      ((psa_destroy_key_internal ⟨.ok s, fb1, .ok (), fb2, .ok ()⟩ app_name op
          ⟨okStore data, lids⟩).2.1).local_ids = idErase lids kid) := by
  refine ⟨?_, ?_, ?_, ?_, ?_, ?_⟩
  · intro data lids app_name op kid attrs s fb1 d1 fb2 d2 e hget hlen hf1
    rcases hfk1 : find_key fb1 s kid .Any with ⟨r1, calls1⟩
    rw [hfk1] at hf1
    obtain rfl := (hf1 : r1 = .error e)
    constructor <;>
      simp [psa_destroy_key_internal, get_key_info, StoreBehavior.get, okStore,
        hget, hlen, hfk1]
  · intro data lids app_name op kid attrs s fb1 fb2 d2 k e hget hlen hf1
    rcases hfk1 : find_key fb1 s kid .Any with ⟨r1, calls1⟩
    rw [hfk1] at hf1
    obtain rfl := (hf1 : r1 = .ok k)
    constructor <;>
      simp [psa_destroy_key_internal, get_key_info, StoreBehavior.get, okStore,
        hget, hlen, hfk1]
  · intro data lids app_name op kid attrs s fb1 fb2 d2 k hget hlen hf1 hf2
    rcases hfk1 : find_key fb1 s kid .Any with ⟨r1, calls1⟩
    rw [hfk1] at hf1
    obtain rfl := (hf1 : r1 = .ok k)
    rcases hfk2 : find_key fb2 s kid .Any with ⟨r2, calls2⟩
    rw [hfk2] at hf2
    obtain rfl := (hf2 : r2 = .error .PsaErrorDoesNotExist)
    refine ⟨?_, ?_, ?_⟩ <;>
      simp [psa_destroy_key_internal, get_key_info, StoreBehavior.get, okStore,
        hget, hlen, hfk1, hfk2, remove_key_id, StoreBehavior.remove,
        mapLookup_mapRemoveEntry]
  · intro data lids app_name op kid attrs s fb1 fb2 d2 k e hget hlen hf1 hf2 hne
    rcases hfk1 : find_key fb1 s kid .Any with ⟨r1, calls1⟩
    rw [hfk1] at hf1
    obtain rfl := (hf1 : r1 = .ok k)
    rcases hfk2 : find_key fb2 s kid .Any with ⟨r2, calls2⟩
    rw [hfk2] at hf2
    obtain rfl := (hf2 : r2 = .error e)
    cases e with
    | PsaErrorDoesNotExist => exact absurd rfl hne
    | _ =>
      constructor <;>
        simp [psa_destroy_key_internal, get_key_info, StoreBehavior.get, okStore,
          hget, hlen, hfk1, hfk2]
  · intro data lids app_name op kid attrs s fb1 fb2 k k2 e hget hlen hf1 hf2
    rcases hfk1 : find_key fb1 s kid .Any with ⟨r1, calls1⟩
    rw [hfk1] at hf1
    obtain rfl := (hf1 : r1 = .ok k)
    rcases hfk2 : find_key fb2 s kid .Any with ⟨r2, calls2⟩
    rw [hfk2] at hf2
    obtain rfl := (hf2 : r2 = .ok k2)
    constructor <;>
      simp [psa_destroy_key_internal, get_key_info, StoreBehavior.get, okStore,
        hget, hlen, hfk1, hfk2]
  · intro data lids app_name op kid attrs s fb1 fb2 k k2 hget hlen hf1 hf2
    rcases hfk1 : find_key fb1 s kid .Any with ⟨r1, calls1⟩
    rw [hfk1] at hf1
    obtain rfl := (hf1 : r1 = .ok k)
    rcases hfk2 : find_key fb2 s kid .Any with ⟨r2, calls2⟩
    rw [hfk2] at hf2
    obtain rfl := (hf2 : r2 = .ok k2)
    refine ⟨?_, ?_, ?_⟩ <;>
      simp [psa_destroy_key_internal, get_key_info, StoreBehavior.get, okStore,
        hget, hlen, hfk1, hfk2, remove_key_id, StoreBehavior.remove,
        mapLookup_mapRemoveEntry]

/-- C3 witness: concrete destroy runs covering first-locate failure,
first-destroy failure, swallowed second-locate DoesNotExist, fatal second
errors, and the full two-object success. -/
theorem C3_destroy_two_phase_witness :
    ((psa_destroy_key_internal ⟨.ok 3, ⟨.error 7, .ok [], .ok ()⟩, .ok (),
        ⟨.ok (), .ok [44], .ok ()⟩, .ok ()⟩ "a" ⟨"k"⟩
        ⟨okStore [(⟨"a", .Pkcs11, "k"⟩, ⟨[0, 0, 0, 1], ⟨.RsaKeyPair, 0⟩⟩)],
          [[0, 0, 0, 1]]⟩).1 = .error (utils.to_response_status 7) ∧
      (psa_destroy_key_internal ⟨.ok 3, ⟨.error 7, .ok [], .ok ()⟩, .ok (),
        ⟨.ok (), .ok [44], .ok ()⟩, .ok ()⟩ "a" ⟨"k"⟩
        ⟨okStore [(⟨"a", .Pkcs11, "k"⟩, ⟨[0, 0, 0, 1], ⟨.RsaKeyPair, 0⟩⟩)],
          [[0, 0, 0, 1]]⟩).2.1 =
        ⟨okStore [(⟨"a", .Pkcs11, "k"⟩, ⟨[0, 0, 0, 1], ⟨.RsaKeyPair, 0⟩⟩)],
          [[0, 0, 0, 1]]⟩) ∧
    ((psa_destroy_key_internal ⟨.ok 3, ⟨.ok (), .ok [44], .ok ()⟩, .error 9,
        ⟨.ok (), .ok [44], .ok ()⟩, .ok ()⟩ "a" ⟨"k"⟩
        ⟨okStore [(⟨"a", .Pkcs11, "k"⟩, ⟨[0, 0, 0, 1], ⟨.RsaKeyPair, 0⟩⟩)],
          [[0, 0, 0, 1]]⟩).1 = .error (utils.to_response_status 9) ∧
      (psa_destroy_key_internal ⟨.ok 3, ⟨.ok (), .ok [44], .ok ()⟩, .error 9,
        ⟨.ok (), .ok [44], .ok ()⟩, .ok ()⟩ "a" ⟨"k"⟩
        ⟨okStore [(⟨"a", .Pkcs11, "k"⟩, ⟨[0, 0, 0, 1], ⟨.RsaKeyPair, 0⟩⟩)],
          [[0, 0, 0, 1]]⟩).2.1 =
        ⟨okStore [(⟨"a", .Pkcs11, "k"⟩, ⟨[0, 0, 0, 1], ⟨.RsaKeyPair, 0⟩⟩)],
          [[0, 0, 0, 1]]⟩) ∧
    ((psa_destroy_key_internal ⟨.ok 3, ⟨.ok (), .ok [44], .ok ()⟩, .ok (),
        ⟨.ok (), .ok [], .ok ()⟩, .ok ()⟩ "a" ⟨"k"⟩
        ⟨okStore [(⟨"a", .Pkcs11, "k"⟩, ⟨[0, 0, 0, 1], ⟨.RsaKeyPair, 0⟩⟩)],
          [[0, 0, 0, 1]]⟩).1 = .ok () ∧
      mapLookup ((psa_destroy_key_internal ⟨.ok 3, ⟨.ok (), .ok [44], .ok ()⟩,
          .ok (), ⟨.ok (), .ok [], .ok ()⟩, .ok ()⟩ "a" ⟨"k"⟩
          ⟨okStore [(⟨"a", .Pkcs11, "k"⟩, ⟨[0, 0, 0, 1], ⟨.RsaKeyPair, 0⟩⟩)],
            [[0, 0, 0, 1]]⟩).2.1).key_info_store.data
        (KeyTriple.mk "a" ProviderID.Pkcs11 "k") = none ∧
      ((psa_destroy_key_internal ⟨.ok 3, ⟨.ok (), .ok [44], .ok ()⟩, .ok (),
          ⟨.ok (), .ok [], .ok ()⟩, .ok ()⟩ "a" ⟨"k"⟩
          ⟨okStore [(⟨"a", .Pkcs11, "k"⟩, ⟨[0, 0, 0, 1], ⟨.RsaKeyPair, 0⟩⟩)],
            [[0, 0, 0, 1]]⟩).2.1).local_ids =
        idErase [[0, 0, 0, 1]] [0, 0, 0, 1]) ∧
    ((psa_destroy_key_internal ⟨.ok 3, ⟨.ok (), .ok [44], .ok ()⟩, .ok (),
        ⟨.error 7, .ok [], .ok ()⟩, .ok ()⟩ "a" ⟨"k"⟩
        ⟨okStore [(⟨"a", .Pkcs11, "k"⟩, ⟨[0, 0, 0, 1], ⟨.RsaKeyPair, 0⟩⟩)],
          [[0, 0, 0, 1]]⟩).1 = .error (.TokenError 7) ∧
      (psa_destroy_key_internal ⟨.ok 3, ⟨.ok (), .ok [44], .ok ()⟩, .ok (),
        ⟨.error 7, .ok [], .ok ()⟩, .ok ()⟩ "a" ⟨"k"⟩
        ⟨okStore [(⟨"a", .Pkcs11, "k"⟩, ⟨[0, 0, 0, 1], ⟨.RsaKeyPair, 0⟩⟩)],
          [[0, 0, 0, 1]]⟩).2.1 =
        ⟨okStore [(⟨"a", .Pkcs11, "k"⟩, ⟨[0, 0, 0, 1], ⟨.RsaKeyPair, 0⟩⟩)],
          [[0, 0, 0, 1]]⟩) ∧
    ((psa_destroy_key_internal ⟨.ok 3, ⟨.ok (), .ok [44], .ok ()⟩, .ok (),
        ⟨.ok (), .ok [45], .ok ()⟩, .error 9⟩ "a" ⟨"k"⟩
        ⟨okStore [(⟨"a", .Pkcs11, "k"⟩, ⟨[0, 0, 0, 1], ⟨.RsaKeyPair, 0⟩⟩)],
          [[0, 0, 0, 1]]⟩).1 = .error (utils.to_response_status 9) ∧
      (psa_destroy_key_internal ⟨.ok 3, ⟨.ok (), .ok [44], .ok ()⟩, .ok (),
        ⟨.ok (), .ok [45], .ok ()⟩, .error 9⟩ "a" ⟨"k"⟩
        ⟨okStore [(⟨"a", .Pkcs11, "k"⟩, ⟨[0, 0, 0, 1], ⟨.RsaKeyPair, 0⟩⟩)],
          [[0, 0, 0, 1]]⟩).2.1 =
        ⟨okStore [(⟨"a", .Pkcs11, "k"⟩, ⟨[0, 0, 0, 1], ⟨.RsaKeyPair, 0⟩⟩)],
          [[0, 0, 0, 1]]⟩) ∧
    ((psa_destroy_key_internal ⟨.ok 3, ⟨.ok (), .ok [44], .ok ()⟩, .ok (),
        ⟨.ok (), .ok [45], .ok ()⟩, .ok ()⟩ "a" ⟨"k"⟩
        ⟨okStore [(⟨"a", .Pkcs11, "k"⟩, ⟨[0, 0, 0, 1], ⟨.RsaKeyPair, 0⟩⟩)],
          [[0, 0, 0, 1]]⟩).1 = .ok () ∧
      mapLookup ((psa_destroy_key_internal ⟨.ok 3, ⟨.ok (), .ok [44], .ok ()⟩,
          .ok (), ⟨.ok (), .ok [45], .ok ()⟩, .ok ()⟩ "a" ⟨"k"⟩
          ⟨okStore [(⟨"a", .Pkcs11, "k"⟩, ⟨[0, 0, 0, 1], ⟨.RsaKeyPair, 0⟩⟩)],
            [[0, 0, 0, 1]]⟩).2.1).key_info_store.data
        (KeyTriple.mk "a" ProviderID.Pkcs11 "k") = none ∧
      ((psa_destroy_key_internal ⟨.ok 3, ⟨.ok (), .ok [44], .ok ()⟩, .ok (),
          ⟨.ok (), .ok [45], .ok ()⟩, .ok ()⟩ "a" ⟨"k"⟩
          ⟨okStore [(⟨"a", .Pkcs11, "k"⟩, ⟨[0, 0, 0, 1], ⟨.RsaKeyPair, 0⟩⟩)],
            [[0, 0, 0, 1]]⟩).2.1).local_ids =
        idErase [[0, 0, 0, 1]] [0, 0, 0, 1]) :=
  ⟨C3_destroy_two_phase.1 [(⟨"a", .Pkcs11, "k"⟩, ⟨[0, 0, 0, 1], ⟨.RsaKeyPair, 0⟩⟩)]
      [[0, 0, 0, 1]] "a" ⟨"k"⟩ [0, 0, 0, 1] ⟨.RsaKeyPair, 0⟩ 3
      ⟨.error 7, .ok [], .ok ()⟩ (.ok ()) ⟨.ok (), .ok [44], .ok ()⟩ (.ok ())
      (utils.to_response_status 7) (by decide) (by decide) (by decide),
    C3_destroy_two_phase.2.1 [(⟨"a", .Pkcs11, "k"⟩, ⟨[0, 0, 0, 1], ⟨.RsaKeyPair, 0⟩⟩)]
      [[0, 0, 0, 1]] "a" ⟨"k"⟩ [0, 0, 0, 1] ⟨.RsaKeyPair, 0⟩ 3
      ⟨.ok (), .ok [44], .ok ()⟩ ⟨.ok (), .ok [44], .ok ()⟩ (.ok ()) 44 9
      (by decide) (by decide) (by decide),
    C3_destroy_two_phase.2.2.1 [(⟨"a", .Pkcs11, "k"⟩, ⟨[0, 0, 0, 1], ⟨.RsaKeyPair, 0⟩⟩)]
      [[0, 0, 0, 1]] "a" ⟨"k"⟩ [0, 0, 0, 1] ⟨.RsaKeyPair, 0⟩ 3
      ⟨.ok (), .ok [44], .ok ()⟩ ⟨.ok (), .ok [], .ok ()⟩ (.ok ()) 44
      (by decide) (by decide) (by decide) (by decide),
    C3_destroy_two_phase.2.2.2.1 [(⟨"a", .Pkcs11, "k"⟩, ⟨[0, 0, 0, 1], ⟨.RsaKeyPair, 0⟩⟩)]
      [[0, 0, 0, 1]] "a" ⟨"k"⟩ [0, 0, 0, 1] ⟨.RsaKeyPair, 0⟩ 3
      ⟨.ok (), .ok [44], .ok ()⟩ ⟨.error 7, .ok [], .ok ()⟩ (.ok ()) 44
      (.TokenError 7) (by decide) (by decide) (by decide) (by decide) (by decide),
    C3_destroy_two_phase.2.2.2.2.1 [(⟨"a", .Pkcs11, "k"⟩, ⟨[0, 0, 0, 1], ⟨.RsaKeyPair, 0⟩⟩)]
      [[0, 0, 0, 1]] "a" ⟨"k"⟩ [0, 0, 0, 1] ⟨.RsaKeyPair, 0⟩ 3
      ⟨.ok (), .ok [44], .ok ()⟩ ⟨.ok (), .ok [45], .ok ()⟩ 44 45 9
      (by decide) (by decide) (by decide) (by decide),
    C3_destroy_two_phase.2.2.2.2.2 [(⟨"a", .Pkcs11, "k"⟩, ⟨[0, 0, 0, 1], ⟨.RsaKeyPair, 0⟩⟩)]
      [[0, 0, 0, 1]] "a" ⟨"k"⟩ [0, 0, 0, 1] ⟨.RsaKeyPair, 0⟩ 3
      ⟨.ok (), .ok [44], .ok ()⟩ ⟨.ok (), .ok [45], .ok ()⟩ 44 45
      (by decide) (by decide) (by decide) (by decide)⟩

theorem create_key_id_ok (randoms : Nat → KeyId) (fuel : Nat) (t : KeyTriple)
    (attrs : Attributes) (store : StoreBehavior) (lids : LocalIdStore)
    (kid : KeyId) (store1 : StoreBehavior) (lids1 : LocalIdStore)
    (h : create_key_id randoms fuel t attrs store lids =
      some (.ok kid, store1, lids1)) :
    kid ∉ lids ∧
    store1 = { store with data := mapInsertEntry store.data t ⟨kid, attrs⟩ } ∧
    lids1 = idInsert lids kid := by
  unfold create_key_id at h
  cases hdraw : draw_key_id randoms lids 0 fuel with
  | none => rw [hdraw] at h; cases h
  | some kid0 =>
    rw [hdraw] at h
    unfold StoreBehavior.insert at h
    cases hins : store.insertFault with
    | some e => rw [hins] at h; simp at h
    | none =>
      rw [hins] at h
      simp only [Option.some.injEq, Prod.mk.injEq, Except.ok.injEq] at h
      obtain ⟨hkid, hstore, hlids⟩ := h
      subst hkid
      exact ⟨draw_key_id_not_mem randoms lids 0 fuel kid0 hdraw, hstore.symm,
        hlids.symm⟩

theorem create_key_id_error_state (randoms : Nat → KeyId) (fuel : Nat)
    (t : KeyTriple) (attrs : Attributes) (store : StoreBehavior)
    (lids : LocalIdStore) (e : ResponseStatus) (store1 : StoreBehavior)
    (lids1 : LocalIdStore)
    (h : create_key_id randoms fuel t attrs store lids =
      some (.error e, store1, lids1)) :
    store1 = store ∧ lids1 = lids := by
  unfold create_key_id at h
  cases hdraw : draw_key_id randoms lids 0 fuel with
  | none => rw [hdraw] at h; cases h
  | some kid0 =>
    rw [hdraw] at h
    unfold StoreBehavior.insert at h
    cases hins : store.insertFault with
    | some er =>
      rw [hins] at h
      simp only [Option.some.injEq, Prod.mk.injEq] at h
      exact ⟨h.2.1.symm, h.2.2.symm⟩
    | none => rw [hins] at h; simp at h

theorem remove_key_id_error_state (t : KeyTriple) (kid : KeyId)
    (store : StoreBehavior) (lids : LocalIdStore) (e : ResponseStatus)
    (store2 : StoreBehavior) (lids2 : LocalIdStore)
    (h : remove_key_id t kid store lids = (.error e, store2, lids2)) :
    store2 = store ∧ lids2 = lids := by
  unfold remove_key_id StoreBehavior.remove at h
  cases hf : store.removeFault with
  | some er =>
    rw [hf] at h
    simp only [Prod.mk.injEq] at h
    exact ⟨h.2.1.symm, h.2.2.symm⟩
  | none => rw [hf] at h; simp at h

theorem remove_key_id_ok_state (t : KeyTriple) (kid : KeyId)
    (store : StoreBehavior) (lids : LocalIdStore) (r : Unit)
    (store2 : StoreBehavior) (lids2 : LocalIdStore)
    (h : remove_key_id t kid store lids = (.ok r, store2, lids2)) :
    store2 = { store with data := mapRemoveEntry store.data t } ∧
    lids2 = idErase lids kid := by
  unfold remove_key_id StoreBehavior.remove at h
  cases hf : store.removeFault with
  | some er => rw [hf] at h; simp at h
  | none =>
    rw [hf] at h
    simp only [Prod.mk.injEq] at h
    exact ⟨h.2.1.symm, h.2.2.symm⟩

theorem storeIndexInv_insert (store : StoreBehavior) (lids : LocalIdStore)
    (t : KeyTriple) (kid : KeyId) (attrs : Attributes)
    (hinv : StoreIndexInv ⟨store, lids⟩) (hfresh : kid ∉ lids) :
    StoreIndexInv ⟨{ store with data := mapInsertEntry store.data t ⟨kid, attrs⟩ },
      idInsert lids kid⟩ := by
  obtain ⟨h1, h2⟩ := hinv
  constructor
  · intro u ki hu
    simp only [mapLookup_mapInsertEntry] at hu
    by_cases hut : u = t
    · rw [if_pos hut] at hu
      cases hu
      exact mem_idInsert_self lids kid
    · rw [if_neg hut] at hu
      exact mem_idInsert_of_mem _ _ _ (h1 u ki hu)
  · intro u1 u2 ki1 ki2 hu1 hu2 hne
    simp only [mapLookup_mapInsertEntry] at hu1 hu2
    by_cases h1t : u1 = t
    · rw [if_pos h1t] at hu1
      cases hu1
      have h2t : ¬ u2 = t := fun hc => hne (h1t.trans hc.symm)
      rw [if_neg h2t] at hu2
      intro hc
      have hc2 : kid = ki2.id := hc
      exact hfresh (by rw [hc2]; exact h1 u2 ki2 hu2)
    · rw [if_neg h1t] at hu1
      by_cases h2t : u2 = t
      · rw [if_pos h2t] at hu2
        cases hu2
        intro hc
        have hc2 : ki1.id = kid := hc
        exact hfresh (by rw [← hc2]; exact h1 u1 ki1 hu1)
      · rw [if_neg h2t] at hu2
        exact h2 u1 u2 ki1 ki2 hu1 hu2 hne

theorem storeIndexInv_remove (store : StoreBehavior) (lids : LocalIdStore)
    (t : KeyTriple) (kid : KeyId) (attrs : Attributes)
    (hinv : StoreIndexInv ⟨store, lids⟩)
    (hlook : mapLookup store.data t = some ⟨kid, attrs⟩) :
    StoreIndexInv ⟨{ store with data := mapRemoveEntry store.data t },
      idErase lids kid⟩ := by
  obtain ⟨h1, h2⟩ := hinv
  constructor
  · intro u ki hu
    simp only [mapLookup_mapRemoveEntry] at hu
    by_cases hut : u = t
    · rw [if_pos hut] at hu; cases hu
    · rw [if_neg hut] at hu
      have hid : ki.id ≠ kid := h2 u t ki ⟨kid, attrs⟩ hu hlook hut
      exact mem_idErase_of_ne _ _ _ hid (h1 u ki hu)
  · intro u1 u2 ki1 ki2 hu1 hu2 hne
    simp only [mapLookup_mapRemoveEntry] at hu1 hu2
    by_cases h1t : u1 = t
    · rw [if_pos h1t] at hu1; cases hu1
    · rw [if_neg h1t] at hu1
      by_cases h2t : u2 = t
      · rw [if_pos h2t] at hu2; cases hu2
      · rw [if_neg h2t] at hu2
        exact h2 u1 u2 ki1 ki2 hu1 hu2 hne

theorem generate_preserves_storeIndexInv (backend : GenerateBackend)
    (randoms : Nat → KeyId) (fuel : Nat) (app_name : String) (op : GenerateOp)
    (st : ProviderState) (res : Except ResponseStatus Unit) (st2 : ProviderState)
    (tr : List TokenCall) (hinv : StoreIndexInv st)
    (heq : psa_generate_key_internal backend randoms fuel app_name op st =
      some (res, st2, tr)) : StoreIndexInv st2 := by
  unfold psa_generate_key_internal at heq
  simp only [] at heq
  by_cases hty : op.attributes.key_type ≠ KeyType.RsaKeyPair
  · rw [if_pos hty] at heq
    simp only [Option.some.injEq, Prod.mk.injEq] at heq
    exact heq.2.1 ▸ hinv
  · rw [if_neg hty] at heq
    cases hex : key_info_exists (KeyTriple.mk app_name ProviderID.Pkcs11 op.key_name)
      st.key_info_store with
    | error e =>
      rw [hex] at heq
      simp only [Option.some.injEq, Prod.mk.injEq] at heq
      exact heq.2.1 ▸ hinv
    | ok b =>
      rw [hex] at heq
      cases b with
      | true =>
        simp only [Option.some.injEq, Prod.mk.injEq] at heq
        exact heq.2.1 ▸ hinv
      | false =>
        cases hcr : create_key_id randoms fuel
          (KeyTriple.mk app_name ProviderID.Pkcs11 op.key_name) op.attributes
          st.key_info_store st.local_ids with
        | none => rw [hcr] at heq; simp at heq
        | some v =>
          obtain ⟨r1, store1, lids1⟩ := v
          rw [hcr] at heq
          cases r1 with
          | error e =>
            obtain ⟨hs, hl⟩ := create_key_id_error_state _ _ _ _ _ _ _ _ _ hcr
            simp only [Option.some.injEq, Prod.mk.injEq] at heq
            refine heq.2.1 ▸ ?_
            rw [hs, hl]
            exact hinv
          | ok key_id =>
            obtain ⟨hfresh, hs, hl⟩ := create_key_id_ok _ _ _ _ _ _ _ _ _ hcr
            have hinv1 : StoreIndexInv ⟨store1, lids1⟩ := by
              rw [hs, hl]
              exact storeIndexInv_insert st.key_info_store st.local_ids
                (KeyTriple.mk app_name ProviderID.Pkcs11 op.key_name) key_id
                op.attributes hinv hfresh
            have hlook1 : mapLookup store1.data
                (KeyTriple.mk app_name ProviderID.Pkcs11 op.key_name) =
                some ⟨key_id, op.attributes⟩ := by
              rw [hs]
              simp [mapLookup_mapInsertEntry]
            simp only [] at heq
            cases hpp : utils.parsec_to_pkcs11_params op.attributes key_id with
            | error e =>
              rw [hpp] at heq
              simp only [Option.some.injEq, Prod.mk.injEq] at heq
              exact heq.2.1 ▸ hinv1
            | ok q =>
              obtain ⟨mech, pub_t, priv_t, allowed⟩ := q
              rw [hpp] at heq
              simp only [] at heq
              cases hse : backend.session_result with
              | error err =>
                rw [hse] at heq
                simp only [] at heq
                rcases hrm : remove_key_id
                  (KeyTriple.mk app_name ProviderID.Pkcs11 op.key_name) key_id
                  store1 lids1 with ⟨r2, store2, lids2⟩
                rw [hrm] at heq
                cases r2 with
                | error e2 =>
                  obtain ⟨hs2, hl2⟩ := remove_key_id_error_state _ _ _ _ _ _ _ hrm
                  simp only [Option.some.injEq, Prod.mk.injEq] at heq
                  refine heq.2.1 ▸ ?_
                  rw [hs2, hl2]
                  exact hinv1
                | ok r3 =>
                  obtain ⟨hs2, hl2⟩ := remove_key_id_ok_state _ _ _ _ _ _ _ hrm
                  simp only [Option.some.injEq, Prod.mk.injEq] at heq
                  refine heq.2.1 ▸ ?_
                  rw [hs2, hl2]
                  exact storeIndexInv_remove store1 lids1 _ key_id op.attributes
                    hinv1 hlook1
              | ok session =>
                rw [hse] at heq
                cases hgr : backend.generate_key_pair_result with
                | ok u =>
                  rw [hgr] at heq
                  simp only [Option.some.injEq, Prod.mk.injEq] at heq
                  exact heq.2.1 ▸ hinv1
                | error e =>
                  rw [hgr] at heq
                  simp only [] at heq
                  rcases hrm : remove_key_id
                    (KeyTriple.mk app_name ProviderID.Pkcs11 op.key_name) key_id
                    store1 lids1 with ⟨r2, store2, lids2⟩
                  rw [hrm] at heq
                  cases r2 with
                  | error e2 =>
                    obtain ⟨hs2, hl2⟩ := remove_key_id_error_state _ _ _ _ _ _ _ hrm
                    simp only [Option.some.injEq, Prod.mk.injEq] at heq
                    refine heq.2.1 ▸ ?_
                    rw [hs2, hl2]
                    exact hinv1
                  | ok r3 =>
                    obtain ⟨hs2, hl2⟩ := remove_key_id_ok_state _ _ _ _ _ _ _ hrm
                    simp only [Option.some.injEq, Prod.mk.injEq] at heq
                    refine heq.2.1 ▸ ?_
                    rw [hs2, hl2]
                    exact storeIndexInv_remove store1 lids1 _ key_id op.attributes
                      hinv1 hlook1

theorem import_preserves_storeIndexInv (backend : ImportBackend)
    (randoms : Nat → KeyId) (fuel : Nat) (app_name : String) (op : ImportOp)
    (st : ProviderState) (res : Except ResponseStatus Unit) (st2 : ProviderState)
    (tr : List TokenCall) (hinv : StoreIndexInv st)
    (heq : psa_import_key_internal backend randoms fuel app_name op st =
      some (res, st2, tr)) : StoreIndexInv st2 := by
  unfold psa_import_key_internal at heq
  simp only [] at heq
  by_cases hty : op.attributes.key_type ≠ KeyType.RsaPublicKey
  · rw [if_pos hty] at heq
    simp only [Option.some.injEq, Prod.mk.injEq] at heq
    exact heq.2.1 ▸ hinv
  · rw [if_neg hty] at heq
    cases hex : key_info_exists (KeyTriple.mk app_name ProviderID.Pkcs11 op.key_name)
      st.key_info_store with
    | error e =>
      rw [hex] at heq
      simp only [Option.some.injEq, Prod.mk.injEq] at heq
      exact heq.2.1 ▸ hinv
    | ok b =>
      rw [hex] at heq
      cases b with
      | true =>
        simp only [Option.some.injEq, Prod.mk.injEq] at heq
        exact heq.2.1 ▸ hinv
      | false =>
        cases hcr : create_key_id randoms fuel
          (KeyTriple.mk app_name ProviderID.Pkcs11 op.key_name) op.attributes
          st.key_info_store st.local_ids with
        | none => rw [hcr] at heq; simp at heq
        | some v =>
          obtain ⟨r1, store1, lids1⟩ := v
          rw [hcr] at heq
          cases r1 with
          | error e =>
            obtain ⟨hs, hl⟩ := create_key_id_error_state _ _ _ _ _ _ _ _ _ hcr
            simp only [Option.some.injEq, Prod.mk.injEq] at heq
            refine heq.2.1 ▸ ?_
            rw [hs, hl]
            exact hinv
          | ok key_id =>
            obtain ⟨hfresh, hs, hl⟩ := create_key_id_ok _ _ _ _ _ _ _ _ _ hcr
            have hinv1 : StoreIndexInv ⟨store1, lids1⟩ := by
              rw [hs, hl]
              exact storeIndexInv_insert st.key_info_store st.local_ids
                (KeyTriple.mk app_name ProviderID.Pkcs11 op.key_name) key_id
                op.attributes hinv hfresh
            have hlook1 : mapLookup store1.data
                (KeyTriple.mk app_name ProviderID.Pkcs11 op.key_name) =
                some ⟨key_id, op.attributes⟩ := by
              rw [hs]
              simp [mapLookup_mapInsertEntry]
            have hinvrm := storeIndexInv_remove store1 lids1
              (KeyTriple.mk app_name ProviderID.Pkcs11 op.key_name) key_id
              op.attributes hinv1 hlook1
            simp only [] at heq
            cases hpr : op.data_parse_result with
            | error u =>
              rw [hpr] at heq
              simp only [] at heq
              rcases hrm : remove_key_id
                (KeyTriple.mk app_name ProviderID.Pkcs11 op.key_name) key_id
                store1 lids1 with ⟨r2, store2, lids2⟩
              rw [hrm] at heq
              cases r2 with
              | error e2 =>
                obtain ⟨hs2, hl2⟩ := remove_key_id_error_state _ _ _ _ _ _ _ hrm
                simp only [Option.some.injEq, Prod.mk.injEq] at heq
                refine heq.2.1 ▸ ?_
                rw [hs2, hl2]
                exact hinv1
              | ok r3 =>
                obtain ⟨hs2, hl2⟩ := remove_key_id_ok_state _ _ _ _ _ _ _ hrm
                simp only [Option.some.injEq, Prod.mk.injEq] at heq
                refine heq.2.1 ▸ ?_
                rw [hs2, hl2]
                exact hinvrm
            | ok pk =>
              rw [hpr] at heq
              simp only [] at heq
              by_cases hneg : (IntegerAsn1.is_negative pk.modulus ||
                  IntegerAsn1.is_negative pk.public_exponent) = true
              · rw [if_pos hneg] at heq
                rcases hrm : remove_key_id
                  (KeyTriple.mk app_name ProviderID.Pkcs11 op.key_name) key_id
                  store1 lids1 with ⟨r2, store2, lids2⟩
                rw [hrm] at heq
                cases r2 with
                | error e2 =>
                  obtain ⟨hs2, hl2⟩ := remove_key_id_error_state _ _ _ _ _ _ _ hrm
                  simp only [Option.some.injEq, Prod.mk.injEq] at heq
                  refine heq.2.1 ▸ ?_
                  rw [hs2, hl2]
                  exact hinv1
                | ok r3 =>
                  obtain ⟨hs2, hl2⟩ := remove_key_id_ok_state _ _ _ _ _ _ _ hrm
                  simp only [Option.some.injEq, Prod.mk.injEq] at heq
                  refine heq.2.1 ▸ ?_
                  rw [hs2, hl2]
                  exact hinvrm
              · rw [if_neg hneg] at heq
                by_cases hbits : op.attributes.bits ≠ 0 ∧
                    (IntegerAsn1.as_unsigned_bytes_be pk.modulus).length * 8 ≠
                      op.attributes.bits
                · rw [if_pos hbits] at heq
                  simp only [Option.some.injEq, Prod.mk.injEq] at heq
                  exact heq.2.1 ▸ hinv1
                · rw [if_neg hbits] at heq
                  cases hse : backend.session_result with
                  | error err =>
                    rw [hse] at heq
                    simp only [] at heq
                    rcases hrm : remove_key_id
                      (KeyTriple.mk app_name ProviderID.Pkcs11 op.key_name) key_id
                      store1 lids1 with ⟨r2, store2, lids2⟩
                    rw [hrm] at heq
                    cases r2 with
                    | error e2 =>
                      obtain ⟨hs2, hl2⟩ := remove_key_id_error_state _ _ _ _ _ _ _ hrm
                      simp only [Option.some.injEq, Prod.mk.injEq] at heq
                      refine heq.2.1 ▸ ?_
                      rw [hs2, hl2]
                      exact hinv1
                    | ok r3 =>
                      obtain ⟨hs2, hl2⟩ := remove_key_id_ok_state _ _ _ _ _ _ _ hrm
                      simp only [Option.some.injEq, Prod.mk.injEq] at heq
                      refine heq.2.1 ▸ ?_
                      rw [hs2, hl2]
                      exact hinvrm
                  | ok session =>
                    rw [hse] at heq
                    cases hco : backend.create_object_result with
                    | ok u =>
                      rw [hco] at heq
                      simp only [Option.some.injEq, Prod.mk.injEq] at heq
                      exact heq.2.1 ▸ hinv1
                    | error e =>
                      rw [hco] at heq
                      simp only [] at heq
                      rcases hrm : remove_key_id
                        (KeyTriple.mk app_name ProviderID.Pkcs11 op.key_name) key_id
                        store1 lids1 with ⟨r2, store2, lids2⟩
                      rw [hrm] at heq
                      cases r2 with
                      | error e2 =>
                        obtain ⟨hs2, hl2⟩ :=
                          remove_key_id_error_state _ _ _ _ _ _ _ hrm
                        simp only [Option.some.injEq, Prod.mk.injEq] at heq
                        refine heq.2.1 ▸ ?_
                        rw [hs2, hl2]
                        exact hinv1
                      | ok r3 =>
                        obtain ⟨hs2, hl2⟩ := remove_key_id_ok_state _ _ _ _ _ _ _ hrm
                        simp only [Option.some.injEq, Prod.mk.injEq] at heq
                        refine heq.2.1 ▸ ?_
                        rw [hs2, hl2]
                        exact hinvrm

/-- C5: the identifier allocator never returns an identifier present in the
local identifier index at the time of the call; a successful create records
the identifier in both the store and the index; and consequently the
store-index uniqueness invariant (every live record identifier indexed, and
no two live records with the same identifier) is preserved by every generate
and import call, so no two live Key Records created through the allocator
hold the same identifier. -/
theorem C5_identifier_allocation_unique :
    (∀ randoms local_ids i fuel kid,
      draw_key_id randoms local_ids i fuel = some kid → kid ∉ local_ids) ∧
    (∀ randoms fuel t attrs store lids kid store1 lids1,
      create_key_id randoms fuel t attrs store lids =
        some (.ok kid, store1, lids1) →
      kid ∉ lids ∧ mapLookup store1.data t = some ⟨kid, attrs⟩ ∧ kid ∈ lids1) ∧
    (∀ backend randoms fuel app_name op st res st2 tr,
      StoreIndexInv st →
      psa_generate_key_internal backend randoms fuel app_name op st =
        some (res, st2, tr) → StoreIndexInv st2) ∧
    (∀ backend randoms fuel app_name op st res st2 tr,
      StoreIndexInv st →
      psa_import_key_internal backend randoms fuel app_name op st =
        some (res, st2, tr) → StoreIndexInv st2) := by
  refine ⟨draw_key_id_not_mem, ?_, generate_preserves_storeIndexInv,
    import_preserves_storeIndexInv⟩
  intro randoms fuel t attrs store lids kid store1 lids1 h
  obtain ⟨hfresh, hs, hl⟩ := create_key_id_ok _ _ _ _ _ _ _ _ _ h
  subst hs
  subst hl
  refine ⟨hfresh, ?_, mem_idInsert_self _ _⟩
  simp [mapLookup_mapInsertEntry]

/-- C5 witness: a fresh draw, a concrete create recording the identifier in
store and index, and the invariant carried across a concrete successful
generate and import. -/
theorem C5_identifier_allocation_unique_witness :
    ([0, 0, 0, 1] ∉ ([] : LocalIdStore)) ∧
    ([0, 0, 0, 1] ∉ ([] : LocalIdStore) ∧
      mapLookup (okStore
          [(⟨"a", .Pkcs11, "k"⟩, ⟨[0, 0, 0, 1], ⟨.RsaKeyPair, 0⟩⟩)]).data
        ⟨"a", .Pkcs11, "k"⟩ = some ⟨[0, 0, 0, 1], ⟨.RsaKeyPair, 0⟩⟩ ∧
      [0, 0, 0, 1] ∈ ([[0, 0, 0, 1]] : LocalIdStore)) ∧
    StoreIndexInv (outcomeState (psa_generate_key_internal ⟨.ok 3, .ok ()⟩
      (fun _ => [0, 0, 0, 7]) 1 "app" ⟨"k", ⟨.RsaKeyPair, 1024⟩⟩
      ⟨okStore [], []⟩) ⟨okStore [], []⟩) ∧
    StoreIndexInv (outcomeState (psa_import_key_internal ⟨.ok 3, .ok ()⟩
      (fun _ => [0, 0, 0, 7]) 1 "app" ⟨"k", ⟨.RsaPublicKey, 0⟩, .ok ⟨[1], [1]⟩⟩
      ⟨okStore [], []⟩) ⟨okStore [], []⟩) := by
  have hinv0 : StoreIndexInv ⟨okStore [], []⟩ := by
    constructor
    · intro t ki h
      simp [mapLookup, okStore] at h
    · intro t1 t2 ki1 ki2 h1 h2 hne
      simp [mapLookup, okStore] at h1
  refine ⟨?_, ?_, ?_, ?_⟩
  · exact C5_identifier_allocation_unique.1 (fun _ => [0, 0, 0, 1]) [] 0 1
      [0, 0, 0, 1] (by decide)
  · exact C5_identifier_allocation_unique.2.1 (fun _ => [0, 0, 0, 1]) 1
      ⟨"a", .Pkcs11, "k"⟩ ⟨.RsaKeyPair, 0⟩ (okStore []) [] [0, 0, 0, 1]
      (okStore [(⟨"a", .Pkcs11, "k"⟩, ⟨[0, 0, 0, 1], ⟨.RsaKeyPair, 0⟩⟩)])
      [[0, 0, 0, 1]] (by decide)
  · rcases hrun : psa_generate_key_internal ⟨.ok 3, .ok ()⟩ (fun _ => [0, 0, 0, 7]) 1
      "app" ⟨"k", ⟨.RsaKeyPair, 1024⟩⟩ ⟨okStore [], []⟩ with _ | ⟨r, st2, tr⟩
    · exact absurd hrun (by decide)
    · simp only [outcomeState, Option.map_some, Option.getD_some]
      exact C5_identifier_allocation_unique.2.2.1 ⟨.ok 3, .ok ()⟩
        (fun _ => [0, 0, 0, 7]) 1 "app" ⟨"k", ⟨.RsaKeyPair, 1024⟩⟩
        ⟨okStore [], []⟩ r st2 tr hinv0 hrun
  · rcases hrun : psa_import_key_internal ⟨.ok 3, .ok ()⟩ (fun _ => [0, 0, 0, 7]) 1
      "app" ⟨"k", ⟨.RsaPublicKey, 0⟩, .ok ⟨[1], [1]⟩⟩ ⟨okStore [], []⟩ with
      _ | ⟨r, st2, tr⟩
    · exact absurd hrun (by decide)
    · simp only [outcomeState, Option.map_some, Option.getD_some]
      exact C5_identifier_allocation_unique.2.2.2 ⟨.ok 3, .ok ()⟩
        (fun _ => [0, 0, 0, 7]) 1 "app" ⟨"k", ⟨.RsaPublicKey, 0⟩, .ok ⟨[1], [1]⟩⟩
        ⟨okStore [], []⟩ r st2 tr hinv0 hrun

theorem beVal_cons_zero (bs : List Byte) : beVal (0 :: bs) = beVal bs := by
  simp [beVal]

theorem beVal_as_unsigned (bs : List Byte) :
    beVal (IntegerAsn1.as_unsigned_bytes_be bs) = beVal bs := by
  match bs with
  | [] => rfl
  | [0] => rfl
  | [b + 1] => rfl
  | 0 :: b :: rest =>
    simp [IntegerAsn1.as_unsigned_bytes_be, beVal_cons_zero]
  | (b + 1) :: c :: rest => rfl

theorem beVal_from_unsigned (bs : List Byte) :
    beVal (IntegerAsn1.from_unsigned_bytes_be bs) = beVal bs := by
  match bs with
  | [] => rfl
  | b :: rest =>
    simp only [IntegerAsn1.from_unsigned_bytes_be]
    by_cases h : msb_set b = true
    · rw [if_pos h, beVal_cons_zero]
    · rw [if_neg h]

theorem from_unsigned_padding (bs : List Byte) :
    IntegerAsn1.from_unsigned_bytes_be bs =
      if IntegerAsn1.is_negative bs = true then 0 :: bs else bs := by
  match bs with
  | [] => simp [IntegerAsn1.from_unsigned_bytes_be, IntegerAsn1.is_negative]
  | b :: rest => simp [IntegerAsn1.from_unsigned_bytes_be, IntegerAsn1.is_negative]

/-- C9: the import-export round trip: a successful import hands the token the
unsigned big-endian modulus and exponent bytes of the parsed key; an export
whose token returns those byte strings serializes a key built by re-adding a
leading zero byte exactly when the most-significant bit of a value is set;
and this re-encoding is numerically the identity, so the exported key is
numerically equal to the imported one up to sign-padding bytes. -/
theorem C9_import_export_round_trip :
    (∀ randoms fuel app_name (op : ImportOp) data lids s kid pk,
      op.attributes.key_type = KeyType.RsaPublicKey →
      mapLookup data (KeyTriple.mk app_name ProviderID.Pkcs11 op.key_name) = none →
      draw_key_id randoms lids 0 fuel = some kid →
      op.data_parse_result = .ok pk →
      IntegerAsn1.is_negative pk.modulus = false →
      IntegerAsn1.is_negative pk.public_exponent = false →
      ¬(op.attributes.bits ≠ 0 ∧
        (IntegerAsn1.as_unsigned_bytes_be pk.modulus).length * 8 ≠
          op.attributes.bits) →
      outcomeResult (psa_import_key_internal ⟨.ok s, .ok ()⟩ randoms fuel app_name
        op ⟨okStore data, lids⟩) = some (.ok ()) ∧
      outcomeTrace (psa_import_key_internal ⟨.ok s, .ok ()⟩ randoms fuel app_name
        op ⟨okStore data, lids⟩) =
        [.open_session .ReadWrite, .create_object s (import_key_template
          (IntegerAsn1.as_unsigned_bytes_be pk.modulus)
          (IntegerAsn1.as_unsigned_bytes_be pk.public_exponent) kid)]) ∧
    (∀ data lids app_name (op : ExportOp) kid attrs s k objs ml el mb eb,
      mapLookup data (KeyTriple.mk app_name ProviderID.Pkcs11 op.key_name) =
        some ⟨kid, attrs⟩ →
      kid.length = 4 →
      (psa_export_public_key_internal
        ⟨.ok s, ⟨.ok (), .ok (k :: objs), .ok ()⟩, .ok (CKR_OK, ml, el),
          .ok (CKR_OK, mb, eb)⟩ app_name op ⟨okStore data, lids⟩).1 =
        .ok (rsa_public_key_to_der ⟨IntegerAsn1.from_unsigned_bytes_be mb,
          IntegerAsn1.from_unsigned_bytes_be eb⟩)) ∧
    (∀ bs, beVal (IntegerAsn1.from_unsigned_bytes_be
      (IntegerAsn1.as_unsigned_bytes_be bs)) = beVal bs) ∧
    (∀ bs, IntegerAsn1.from_unsigned_bytes_be bs =
      if IntegerAsn1.is_negative bs = true then 0 :: bs else bs) := by
  refine ⟨?_, ?_, ?_, from_unsigned_padding⟩
  · intro randoms fuel app_name op data lids s kid pk hty hlook hdraw hparse hnegm
      hnege hbits
    constructor <;>
      simp [outcomeResult, outcomeTrace, psa_import_key_internal, key_info_exists,
        StoreBehavior.containsKey, okStore, create_key_id, StoreBehavior.insert,
        hty, hlook, hdraw, hparse, hnegm, hnege, hbits]
  · intro data lids app_name op kid attrs s k objs ml el mb eb hget hlen
    simp [psa_export_public_key_internal, get_key_info, StoreBehavior.get, okStore,
      hget, hlen, find_key, CKR_OK, picky_asn1_der.to_vec]
  · intro bs
    rw [beVal_from_unsigned, beVal_as_unsigned]

/-- C9 witness: a concrete sign-padded key imported and exported, with the
numeric value preserved. -/
theorem C9_import_export_round_trip_witness :
    (outcomeResult (psa_import_key_internal ⟨.ok 3, .ok ()⟩ (fun _ => [0, 0, 0, 7])
      1 "app" ⟨"k", ⟨.RsaPublicKey, 0⟩, .ok ⟨[0, 155], [3]⟩⟩
      ⟨okStore [], []⟩) = some (.ok ()) ∧
      outcomeTrace (psa_import_key_internal ⟨.ok 3, .ok ()⟩ (fun _ => [0, 0, 0, 7])
        1 "app" ⟨"k", ⟨.RsaPublicKey, 0⟩, .ok ⟨[0, 155], [3]⟩⟩
        ⟨okStore [], []⟩) =
        [.open_session .ReadWrite, .create_object 3 (import_key_template
          (IntegerAsn1.as_unsigned_bytes_be [0, 155])
          (IntegerAsn1.as_unsigned_bytes_be [3]) [0, 0, 0, 7])]) ∧
    (psa_export_public_key_internal
      ⟨.ok 3, ⟨.ok (), .ok [44], .ok ()⟩, .ok (CKR_OK, 1, 1),
        .ok (CKR_OK, [155], [3])⟩ "app" ⟨"k"⟩
      ⟨okStore [(⟨"app", .Pkcs11, "k"⟩, ⟨[0, 0, 0, 7], ⟨.RsaPublicKey, 0⟩⟩)],
        [[0, 0, 0, 7]]⟩).1 =
      .ok (rsa_public_key_to_der ⟨IntegerAsn1.from_unsigned_bytes_be [155],
        IntegerAsn1.from_unsigned_bytes_be [3]⟩) ∧
    beVal (IntegerAsn1.from_unsigned_bytes_be
      (IntegerAsn1.as_unsigned_bytes_be [0, 155])) = beVal [0, 155] ∧
    IntegerAsn1.from_unsigned_bytes_be [155] =
      (if IntegerAsn1.is_negative [155] = true then 0 :: [155] else [155]) :=
  ⟨C9_import_export_round_trip.1 (fun _ => [0, 0, 0, 7]) 1 "app"
      ⟨"k", ⟨.RsaPublicKey, 0⟩, .ok ⟨[0, 155], [3]⟩⟩ [] [] 3 [0, 0, 0, 7]
      ⟨[0, 155], [3]⟩ rfl rfl (by decide) rfl (by decide) (by decide) (by decide),
    C9_import_export_round_trip.2.1
      [(⟨"app", .Pkcs11, "k"⟩, ⟨[0, 0, 0, 7], ⟨.RsaPublicKey, 0⟩⟩)] [[0, 0, 0, 7]]
      "app" ⟨"k"⟩ [0, 0, 0, 7] ⟨.RsaPublicKey, 0⟩ 3 44 [] 1 1 [155] [3]
      (by decide) (by decide),
    C9_import_export_round_trip.2.2.1 [0, 155],
    C9_import_export_round_trip.2.2.2 [155]⟩
